import Mathlib

/-!
Shallow embedding of the reward-backend API module (`src/api/index.js`,
first revision, lines 1-1352) of the Telegram mini-app ad-rewards service.

Persistent state (the Supabase tables used by the handlers) is modelled as
an explicit `Store` record threaded through every handler; each handler is
a pure function `... → Store → Resp × Store` mirroring the sequence of
REST reads and writes the JavaScript performs.  Timestamps are naturals
(milliseconds), money amounts are rationals (the code mixes integer
rewards with fractional commissions).
-/

namespace AdRewards

/-- Server-side constants, `src/api/index.js` lines 17-28. -/
def REWARD_PER_AD : ℚ := 6

def REFERRAL_COMMISSION_RATE : ℚ := 40 / 100

def DAILY_MAX_ADS : Nat := 200

def DAILY_MAX_SPINS : Nat := 25

def RESET_INTERVAL_MS : Nat := 6 * 60 * 60 * 1000

def MIN_TIME_BETWEEN_ACTIONS_MS : Nat := 3000

def ACTION_ID_EXPIRY_MS : Nat := 60000

def SPIN_SECTORS : List ℚ := [5, 10, 15, 20, 5]

def TASK_LINK_REWARD : ℚ := 5

def TASK_LINK_DAILY_MAX : Nat := 200

/-- Minimum withdrawal, `handleWithdraw` line 1005. -/
def MIN_WITHDRAW : ℚ := 2000

/-- A row of the `users` table, with the columns the handlers read and
write (balance, daily counters, limit-reached markers, `last_activity`,
ban flag, referrer).  The `shadow_ban` field is Modelled from the spec:
the users-table schema is external to the repository and the spec's data
model (section 3) lists a shadow-ban flag; no handler in the source ever
selects, reads or writes such a column, which the embedding reflects by
never touching this field. -/
structure UserRec where
  balance : ℚ
  ads_watched_today : Nat
  spins_today : Nat
  task_link_clicks_today : Nat
  ads_limit_reached_at : Option Nat
  spins_limit_reached_at : Option Nat
  task_link_limit_reached_at : Option Nat
  last_activity : Option Nat
  is_banned : Bool
  shadow_ban : Bool
  ref_by : Option Nat
deriving DecidableEq

/-- A row of the `temp_actions` table (single-use action tokens). -/
structure TempAction where
  rowId : Nat
  userId : Nat
  actionId : String
  actionType : String
  createdAt : Nat
deriving DecidableEq

/-- A row of the `tasks` table (the columns `handleCompleteTask` selects). -/
structure TaskRec where
  reward : ℚ
  link : Option String
  max_participants : Option Nat
  ttype : Option String
deriving DecidableEq

/-- The backing store: `users` and `tasks` are keyed by their primary key
(the REST filters are always `id=eq.<n>`), the other tables are row lists. -/
structure Store where
  users : Nat → Option UserRec
  temp_actions : List TempAction
  tasks : Nat → Option TaskRec
  completions : List (Nat × Nat)
  withdrawals : List (Nat × ℚ × String)
  faucet_pay : List (Nat × ℚ × String)
  spin_results : List (Nat × ℚ)
  task_link_clicks : List (Nat × ℚ)
  commission_history : List (Nat × Option Nat × ℚ × ℚ)

/-- A JSON response: `sendSuccess` (HTTP 200, carrying the balance/count
fields the handlers return) or `sendError` (HTTP status + message). -/
inductive Resp where
  | ok (newBalance : Option ℚ) (newCount : Option Nat)
  | err (code : Nat) (msg : String)
deriving DecidableEq

/-- PATCH `users?id=eq.uid` with a field update. -/
def updateUser (st : Store) (uid : Nat) (f : UserRec → UserRec) : Store :=
  { st with users := fun n => if n = uid then (st.users n).map f else st.users n }

-- ------------------------------------------------------------------
-- resetDailyLimitsIfExpired (lines 149-201)
-- ------------------------------------------------------------------

/-- Condition of line 163-165: the ads marker is set, the counter is at
or above the cap, and more than six hours have elapsed. -/
def adsResetDue (now : Nat) (u : UserRec) : Bool :=
  match u.ads_limit_reached_at with
  | some t => decide (DAILY_MAX_ADS ≤ u.ads_watched_today) &&
      decide ((RESET_INTERVAL_MS : ℤ) < (now : ℤ) - (t : ℤ))
  | none => false

/-- Condition of line 173-175 for the spins family. -/
def spinsResetDue (now : Nat) (u : UserRec) : Bool :=
  match u.spins_limit_reached_at with
  | some t => decide (DAILY_MAX_SPINS ≤ u.spins_today) &&
      decide ((RESET_INTERVAL_MS : ℤ) < (now : ℤ) - (t : ℤ))
  | none => false

/-- Condition of line 183-185 for the task-link family. -/
def tlResetDue (now : Nat) (u : UserRec) : Bool :=
  match u.task_link_limit_reached_at with
  | some t => decide (TASK_LINK_DAILY_MAX ≤ u.task_link_clicks_today) &&
      decide ((RESET_INTERVAL_MS : ℤ) < (now : ℤ) - (t : ℤ))
  | none => false

/-- The accumulated update payload of `resetDailyLimitsIfExpired`: each
family that is due has its counter zeroed and its marker cleared in the
same single PATCH. -/
def resetUserRec (now : Nat) (u : UserRec) : UserRec :=
  let u1 := if adsResetDue now u then
    { u with ads_watched_today := 0, ads_limit_reached_at := none } else u
  let u2 := if spinsResetDue now u then
    { u1 with spins_today := 0, spins_limit_reached_at := none } else u1
  if tlResetDue now u then
    { u2 with task_link_clicks_today := 0, task_link_limit_reached_at := none } else u2

/-- Lines 149-201: fetch the user's counters and markers, build the
update payload, and PATCH it (a no-op when nothing is due or the user is
missing). -/
def resetDailyLimitsIfExpired (now uid : Nat) (st : Store) : Store :=
  match st.users uid with
  | none => st
  | some _ => updateUser st uid (resetUserRec now)

-- ------------------------------------------------------------------
-- checkRateLimit (lines 206-231)
-- ------------------------------------------------------------------

/-- The elapsed-time test of lines 214-218: the single `last_activity`
timestamp (0 when null) must be at least 3 seconds in the past. -/
def rateOk (now : Nat) (u : UserRec) : Bool :=
  !(decide ((now : ℤ) -
      (match u.last_activity with | some t => (t : ℤ) | none => 0) <
      (MIN_TIME_BETWEEN_ACTIONS_MS : ℤ)))

/-- Lines 206-231; a missing user row passes (fail open). -/
def checkRateLimit (now uid : Nat) (st : Store) : Bool :=
  match st.users uid with
  | none => true
  | some u => rateOk now u

-- ------------------------------------------------------------------
-- validateAndUseActionId (lines 410-445)
-- ------------------------------------------------------------------

/-- Outcome of the token check; `okConsumed` means the row was found,
unexpired, and deleted on the spot (line 436). -/
inductive TokenCheck where
  | missing
  | notFound
  | expired
  | okConsumed
deriving DecidableEq

/-- The HTTP status `validateAndUseActionId` sends for each outcome
(lines 412, 421, 431; 200 when validation passes). -/
def tokenHttpStatus : TokenCheck → Nat
  | .missing => 400
  | .notFound => 409
  | .expired => 408
  | .okConsumed => 200

/-- Row predicate of the GET filter at line 417. -/
def matchesToken (uid : Nat) (aid atype : String) (r : TempAction) : Bool :=
  decide (r.userId = uid) && decide (r.actionId = aid) && decide (r.actionType = atype)

/-- Lines 410-445: look up the token row; missing argument is 400, no
row is 409, an expired row is deleted and reported 408, otherwise the
row is deleted ("use the token") and validation succeeds. -/
def validateAndUseActionId (now uid : Nat) (actionId : Option String)
    (actionType : String) (ta : List TempAction) : TokenCheck × List TempAction :=
  match actionId with
  | none => (.missing, ta)
  | some aid =>
    match (ta.filter (matchesToken uid aid actionType)).head? with
    | none => (.notFound, ta)
    | some record =>
      if (ACTION_ID_EXPIRY_MS : ℤ) < (now : ℤ) - (record.createdAt : ℤ) then
        (.expired, ta.filter (fun r => !decide (r.rowId = record.rowId)))
      else
        (.okConsumed, ta.filter (fun r => !decide (r.rowId = record.rowId)))

-- ------------------------------------------------------------------
-- processCommission (lines 316-348)
-- ------------------------------------------------------------------

/-- Lines 316-348: credit `sourceReward * 40%` to the referrer unless
the commission is below the epsilon, the referrer is missing, or the
referrer is banned; on success returns the new referrer balance. -/
def processCommission (referrerId refereeId : Option Nat) (sourceReward : ℚ)
    (st : Store) : Option ℚ × Store :=
  if sourceReward * REFERRAL_COMMISSION_RATE < 1 / 1000000 then (none, st)
  else
    match referrerId with
    | none => (none, st)
    | some rid =>
      match st.users rid with
      | none => (none, st)
      | some refUser =>
        if refUser.is_banned then (none, st)
        else
          (some (refUser.balance + sourceReward * REFERRAL_COMMISSION_RATE),
           { updateUser st rid (fun w =>
               { w with balance := refUser.balance + sourceReward * REFERRAL_COMMISSION_RATE }) with
             commission_history :=
               (rid, refereeId, sourceReward * REFERRAL_COMMISSION_RATE, sourceReward) ::
                 st.commission_history })

-- ------------------------------------------------------------------
-- Shared error messages (string payloads of sendError)
-- ------------------------------------------------------------------

def msgMissingToken : String := "Missing Server Token (Action ID). Request rejected."

def msgUsedToken : String := "Invalid or previously used Server Token (Action ID)."

def msgExpiredToken : String := "Server Token (Action ID) expired. Please try again."

def msgUserNotFound : String := "User not found."

def msgBanned : String := "User is banned."

def msgRate : String := "Rate limit exceeded."

def msgAdLimit : String := "Daily ad limit (200) reached."

def msgSpinLimit : String := "Daily spin limit (25) reached."

def msgTaskLinkLimit : String := "Daily task-link limit (200) reached."

-- ------------------------------------------------------------------
-- handleWatchAd (lines 624-692)
-- ------------------------------------------------------------------

/-- Persistence step of `handleWatchAd` (lines 661-683): PATCH balance,
counter, `last_activity` (and the limit marker when the cap is reached
now), then fire the referral commission. -/
def watchAdPersist (now uid : Nat) (user : UserRec) (st : Store) : Store :=
  let newAds := user.ads_watched_today + 1
  let st2 := updateUser st uid (fun w =>
    { w with
      balance := user.balance + REWARD_PER_AD,
      ads_watched_today := newAds,
      last_activity := some now,
      ads_limit_reached_at :=
        if DAILY_MAX_ADS ≤ newAds then some now else w.ads_limit_reached_at })
  match user.ref_by with
  | some rid => (processCommission (some rid) (some uid) REWARD_PER_AD st2).2
  | none => st2

/-- Body of `handleWatchAd` after the reset step (lines 636-686): fetch
the user, then banned check, rate check, cap check, and on success the
persistence step. -/
def watchAdChecked (now uid : Nat) (st : Store) : Resp × Store :=
  match st.users uid with
  | none => (.err 404 msgUserNotFound, st)
  | some user =>
    if user.is_banned then (.err 403 msgBanned, st)
    else if checkRateLimit now uid st = false then (.err 429 msgRate, st)
    else if DAILY_MAX_ADS ≤ user.ads_watched_today then (.err 403 msgAdLimit, st)
    else
      (.ok (some (user.balance + REWARD_PER_AD)) (some (user.ads_watched_today + 1)),
       watchAdPersist now uid user st)

/-- Lines 624-692: consume the action token (immediate deletion inside
`validateAndUseActionId`), run the daily-limit reset, then the checked
body. -/
def handleWatchAd (now uid : Nat) (aid : Option String) (st : Store) : Resp × Store :=
  match validateAndUseActionId now uid aid "watchAd" st.temp_actions with
  | (TokenCheck.missing, ta2) => (.err 400 msgMissingToken, { st with temp_actions := ta2 })
  | (TokenCheck.notFound, ta2) => (.err 409 msgUsedToken, { st with temp_actions := ta2 })
  | (TokenCheck.expired, ta2) => (.err 408 msgExpiredToken, { st with temp_actions := ta2 })
  | (TokenCheck.okConsumed, ta2) =>
    watchAdChecked now uid (resetDailyLimitsIfExpired now uid { st with temp_actions := ta2 })

-- ------------------------------------------------------------------
-- handleSpinResult (lines 743-815)
-- ------------------------------------------------------------------

/-- Persistence step of `handleSpinResult` (lines 780-801): PATCH
balance, spin counter, `last_activity` (and the spins marker when the
cap is reached now), then record the spin-result row.  No commission is
fired by the spin handler. -/
def spinPersist (now uid : Nat) (prize : ℚ) (user : UserRec) (st : Store) : Store :=
  let newSpins := user.spins_today + 1
  let st2 := updateUser st uid (fun w =>
    { w with
      balance := user.balance + prize,
      spins_today := newSpins,
      last_activity := some now,
      spins_limit_reached_at :=
        if DAILY_MAX_SPINS ≤ newSpins then some now else w.spins_limit_reached_at })
  { st2 with spin_results := (uid, prize) :: st2.spin_results }

/-- Body of `handleSpinResult` after the reset step (lines 753-809).
`randomIndex` stands for the `Math.random` draw of
`calculateRandomSpinPrize`; the prize is the corresponding sector. -/
def spinChecked (now randomIndex uid : Nat) (st : Store) : Resp × Store :=
  match st.users uid with
  | none => (.err 404 msgUserNotFound, st)
  | some user =>
    if user.is_banned then (.err 403 msgBanned, st)
    else if checkRateLimit now uid st = false then (.err 429 msgRate, st)
    else if DAILY_MAX_SPINS ≤ user.spins_today then (.err 403 msgSpinLimit, st)
    else
      let prize := SPIN_SECTORS.getD randomIndex 0
      (.ok (some (user.balance + prize)) (some (user.spins_today + 1)),
       spinPersist now uid prize user st)

/-- Lines 743-815: token consumption, daily-limit reset, then the
checked body. -/
def handleSpinResult (now randomIndex uid : Nat) (aid : Option String)
    (st : Store) : Resp × Store :=
  match validateAndUseActionId now uid aid "spinResult" st.temp_actions with
  | (TokenCheck.missing, ta2) => (.err 400 msgMissingToken, { st with temp_actions := ta2 })
  | (TokenCheck.notFound, ta2) => (.err 409 msgUsedToken, { st with temp_actions := ta2 })
  | (TokenCheck.expired, ta2) => (.err 408 msgExpiredToken, { st with temp_actions := ta2 })
  | (TokenCheck.okConsumed, ta2) =>
    spinChecked now randomIndex uid
      (resetDailyLimitsIfExpired now uid { st with temp_actions := ta2 })

-- ------------------------------------------------------------------
-- handleTaskLinkClick (lines 820-895)
-- ------------------------------------------------------------------

/-- Persistence step of `handleTaskLinkClick` (lines 855-886): PATCH
balance, click counter, `last_activity` (and the task-link marker when
the cap is reached now), record the audit row, then fire the referral
commission. -/
def taskLinkPersist (now uid : Nat) (user : UserRec) (st : Store) : Store :=
  let newCount := user.task_link_clicks_today + 1
  let st2 := updateUser st uid (fun w =>
    { w with
      balance := user.balance + TASK_LINK_REWARD,
      task_link_clicks_today := newCount,
      last_activity := some now,
      task_link_limit_reached_at :=
        if TASK_LINK_DAILY_MAX ≤ newCount then some now else w.task_link_limit_reached_at })
  let st3 := { st2 with task_link_clicks := (uid, TASK_LINK_REWARD) :: st2.task_link_clicks }
  match user.ref_by with
  | some rid => (processCommission (some rid) (some uid) TASK_LINK_REWARD st3).2
  | none => st3

/-- Body of `handleTaskLinkClick` after the reset step (lines 831-889). -/
def taskLinkChecked (now uid : Nat) (st : Store) : Resp × Store :=
  match st.users uid with
  | none => (.err 404 msgUserNotFound, st)
  | some user =>
    if user.is_banned then (.err 403 msgBanned, st)
    else if checkRateLimit now uid st = false then (.err 429 msgRate, st)
    else if TASK_LINK_DAILY_MAX ≤ user.task_link_clicks_today then
      (.err 403 msgTaskLinkLimit, st)
    else
      (.ok (some (user.balance + TASK_LINK_REWARD)) (some (user.task_link_clicks_today + 1)),
       taskLinkPersist now uid user st)

/-- Lines 820-895: token consumption (action type `taskLink`),
daily-limit reset, then the checked body. -/
def handleTaskLinkClick (now uid : Nat) (aid : Option String) (st : Store) : Resp × Store :=
  match validateAndUseActionId now uid aid "taskLink" st.temp_actions with
  | (TokenCheck.missing, ta2) => (.err 400 msgMissingToken, { st with temp_actions := ta2 })
  | (TokenCheck.notFound, ta2) => (.err 409 msgUsedToken, { st with temp_actions := ta2 })
  | (TokenCheck.expired, ta2) => (.err 408 msgExpiredToken, { st with temp_actions := ta2 })
  | (TokenCheck.okConsumed, ta2) =>
    taskLinkChecked now uid (resetDailyLimitsIfExpired now uid { st with temp_actions := ta2 })

-- ------------------------------------------------------------------
-- handleCommission (lines 697-711)
-- ------------------------------------------------------------------

/-- Line 701: `parseFloat(source_reward) || REWARD_PER_AD` — a missing,
unparsable or zero value falls back to the ad reward. -/
def parsedSourceReward : Option ℚ → ℚ
  | some r => if r = 0 then REWARD_PER_AD else r
  | none => REWARD_PER_AD

/-- Lines 697-711: parse the client-supplied ids and `source_reward`,
run `processCommission`, and report its outcome. -/
def handleCommission (referrer_id referee_id : Option Nat) (source_reward : Option ℚ)
    (st : Store) : Resp × Store :=
  match processCommission referrer_id referee_id (parsedSourceReward source_reward) st with
  | (some newBal, st1) => (.ok (some newBal) none, st1)
  | (none, st1) => (.err 500 "Commission processing failed on the server.", st1)

-- ------------------------------------------------------------------
-- handleWithdraw (lines 1001-1094)
-- ------------------------------------------------------------------

/-- Characters the email pattern forbids inside its pieces. -/
def emailPieceChar (c : Char) : Bool := !(c = '@') && !c.isWhitespace

/-- Full-match semantics of the JavaScript test
`/^[^\s@]+@[^\s@]+\.[^\s@]+$/` (line 1039): exactly one `@`, no
whitespace, a nonempty local part, and a dot strictly inside the
nonempty domain part. -/
def emailRegexTest (s : String) : Bool :=
  let cs := s.toList
  match (List.range cs.length).filter (fun i => cs.getD i ' ' = '@') with
  | [i] =>
    let localPart := cs.take i
    let domainPart := cs.drop (i + 1)
    decide (0 < localPart.length) && localPart.all emailPieceChar &&
    decide (0 < domainPart.length) && domainPart.all emailPieceChar &&
    (List.range domainPart.length).any
      (fun j => decide (1 ≤ j) && decide (j + 1 < domainPart.length) &&
        decide (domainPart.getD j ' ' = '.'))
  | _ => false

/-- A client string field that JavaScript treats as present:
`typeof x === 'string' && x.trim() !== ''` yields the trimmed value. -/
def trimmedPresent (s : Option String) : Option String :=
  match s with
  | some v => if v.trim = "" then none else some v.trim
  | none => none

/-- Body of `handleWithdraw` after token consumption (lines 1010-1088):
enforce the minimum amount, fetch the user, check ban and balance,
validate exactly one destination (FaucetPay email preferred over the
Binance id), debit the balance and insert the pending payout row. -/
def withdrawCore (now uid : Nat) (amount : Option ℚ)
    (binanceId faucetpay_email : Option String) (st0 : Store) : Resp × Store :=
  match amount with
  | none => (.err 400 "Minimum withdrawal amount is 2000 SHIB.", st0)
  | some amt =>
    if amt < MIN_WITHDRAW then (.err 400 "Minimum withdrawal amount is 2000 SHIB.", st0)
    else
      match st0.users uid with
      | none => (.err 404 msgUserNotFound, st0)
      | some user =>
        if user.is_banned then (.err 403 msgBanned, st0)
        else if user.balance < amt then (.err 400 "Insufficient balance.", st0)
        else
          match trimmedPresent faucetpay_email with
          | some email =>
            if emailRegexTest email = false then
              (.err 400 "Invalid FaucetPay email address.", st0)
            else
              (.ok (some (user.balance - amt)) none,
               { updateUser st0 uid (fun w =>
                   { w with balance := user.balance - amt, last_activity := some now }) with
                 faucet_pay := (uid, amt, email) :: st0.faucet_pay })
          | none =>
            match trimmedPresent binanceId with
            | some bid =>
              (.ok (some (user.balance - amt)) none,
               { updateUser st0 uid (fun w =>
                   { w with balance := user.balance - amt, last_activity := some now }) with
                 withdrawals := (uid, amt, bid) :: st0.withdrawals })
            | none =>
              (.err 400 "Missing withdrawal destination. Provide binanceId or faucetpay_email.",
               st0)

/-- Lines 1001-1094: consume the `withdraw` token, then the core body. -/
def handleWithdraw (now uid : Nat) (aid : Option String) (amount : Option ℚ)
    (binanceId faucetpay_email : Option String) (st : Store) : Resp × Store :=
  match validateAndUseActionId now uid aid "withdraw" st.temp_actions with
  | (TokenCheck.missing, ta2) => (.err 400 msgMissingToken, { st with temp_actions := ta2 })
  | (TokenCheck.notFound, ta2) => (.err 409 msgUsedToken, { st with temp_actions := ta2 })
  | (TokenCheck.expired, ta2) => (.err 408 msgExpiredToken, { st with temp_actions := ta2 })
  | (TokenCheck.okConsumed, ta2) =>
    withdrawCore now uid amount binanceId faucetpay_email { st with temp_actions := ta2 }

-- ------------------------------------------------------------------
-- checkChannelMembership (lines 107-144) and handleCompleteTask (901-996)
-- ------------------------------------------------------------------

/-- Outcome of the Telegram `getChatMember` call: a transport error, a
non-OK HTTP response, an `ok:false` API payload, or a member status. -/
inductive TgOutcome where
  | netError
  | httpError
  | apiNotOk
  | status (s : String)
deriving DecidableEq

/-- JavaScript truthiness of an optional string (empty string is falsy). -/
def jsTruthyStr : Option String → Bool
  | some s => !(s = "")
  | none => false

/-- Lines 107-144: without a bot token the check is `false`; every
failure (network, HTTP, API) also returns `false`, indistinguishable
from a negative membership answer; otherwise membership holds for the
member, administrator and creator statuses. -/
def checkChannelMembership (botToken : Option String) (_channelUsername : String)
    (o : TgOutcome) : Bool :=
  if jsTruthyStr botToken = false then false
  else
    match o with
    | .netError => false
    | .httpError => false
    | .apiNotOk => false
    | .status s => decide (s = "member") || decide (s = "administrator") ||
        decide (s = "creator")

/-- Word characters of the capture group `[a-zA-Z0-9_]`. -/
def isWordChar (c : Char) : Bool := c.isAlphanum || c = '_'

/-- Literal head `t.me/` of the channel-link pattern. -/
def startsWithTme : List Char → Bool
  | 't' :: '.' :: 'm' :: 'e' :: '/' :: _ => true
  | _ => false

/-- Scan for the first position where `/t\.me\/([a-zA-Z0-9_]+)/`
matches and return the captured channel name. -/
def extractChannelAux : List Char → Option (List Char)
  | [] => none
  | c :: rest =>
    if startsWithTme (c :: rest) then
      match ((c :: rest).drop 5).takeWhile isWordChar with
      | [] => extractChannelAux rest
      | name => some name
    else extractChannelAux rest

/-- The channel-username capture of `handleCompleteTask` line 941. -/
def extractChannel (link : String) : Option String :=
  (extractChannelAux link.toList).map fun l => String.mk l

/-- ASCII lower-casing, character by character. -/
def lowerString (s : String) : String := String.mk (s.toList.map Char.toLower)

/-- Line 925: `(task.type || 'channel').toLowerCase()`. -/
def taskTypeOf (task : TaskRec) : String :=
  lowerString (match task.ttype with
   | some t => if t = "" then "channel" else t
   | none => "channel")

/-- Reward-granting tail of `handleCompleteTask` (lines 958-990): fetch
the user (a missing row crashes into the catch block, a 500), check the
ban, credit the task reward, insert the completion row, and fire the
commission. -/
def completeTaskGrant (now uid taskId : Nat) (reward : ℚ) (st : Store) : Resp × Store :=
  match st.users uid with
  | none => (.err 500 "Failed to complete task.", st)
  | some user =>
    if user.is_banned then (.err 403 msgBanned, st)
    else
      let newBalance := user.balance + reward
      let st1 := updateUser st uid (fun w =>
        { w with balance := newBalance, last_activity := some now })
      let st2 := { st1 with completions := (uid, taskId) :: st1.completions }
      match user.ref_by with
      | some rid => (.ok (some newBalance) none,
          (processCommission (some rid) (some uid) reward st2).2)
      | none => (.ok (some newBalance) none, st2)

/-- Body of `handleCompleteTask` after token consumption (lines
915-995): fetch the task, reject duplicates, rate-check, and for
channel-type tasks require a positive membership answer (any `false`
from `checkChannelMembership`, failure or not, is the user-facing
"has not joined" 400). -/
def completeTaskChecked (now uid taskId : Nat) (botToken : Option String)
    (memb : TgOutcome) (st : Store) : Resp × Store :=
  match st.tasks taskId with
  | none => (.err 404 "Task not found.", st)
  | some task =>
    if 0 < (st.completions.filter
        (fun p => decide (p.1 = uid) && decide (p.2 = taskId))).length then
      (.err 403 "Task already completed by this user.", st)
    else if checkRateLimit now uid st = false then (.err 429 msgRate, st)
    else
      if taskTypeOf task = "channel" then
        match (match task.link with | some l => extractChannel l | none => none) with
        | some ch =>
          if checkChannelMembership botToken ("@" ++ ch) memb = false then
            (.err 400 ("User has not joined the required channel: @" ++ ch), st)
          else completeTaskGrant now uid taskId task.reward st
        | none =>
          (.err 400 "Task verification failed: Invalid Telegram channel link format for a channel task.",
           st)
      else completeTaskGrant now uid taskId task.reward st

/-- Lines 901-996: reject a missing task id, consume the per-task token
(action type `completeTask_<id>`), then the checked body. -/
def handleCompleteTask (now uid : Nat) (aid : Option String) (task_id : Option Nat)
    (botToken : Option String) (memb : TgOutcome) (st : Store) : Resp × Store :=
  match task_id with
  | none => (.err 400 "Missing or invalid task_id.", st)
  | some taskId =>
    match validateAndUseActionId now uid aid ("completeTask_" ++ toString taskId)
        st.temp_actions with
    | (TokenCheck.missing, ta2) => (.err 400 msgMissingToken, { st with temp_actions := ta2 })
    | (TokenCheck.notFound, ta2) => (.err 409 msgUsedToken, { st with temp_actions := ta2 })
    | (TokenCheck.expired, ta2) => (.err 408 msgExpiredToken, { st with temp_actions := ta2 })
    | (TokenCheck.okConsumed, ta2) =>
      completeTaskChecked now uid taskId botToken memb { st with temp_actions := ta2 }

-- ------------------------------------------------------------------
-- Credential selection (lines 4-12) and the supabaseFetch guard (63-66)
-- ------------------------------------------------------------------

/-- JavaScript `a || b` on optional strings (empty string is falsy). -/
def jsOrStr (a b : Option String) : Option String :=
  match a with
  | some s => if s = "" then b else some s
  | none => b

/-- Line 7: `process.env.SUPABASE_SERVICE_ROLE_KEY || process.env.SUPABASE_KEY || null`. -/
def SUPABASE_SERVICE_ROLE_KEY (envServiceRole envSupabaseKey : Option String) :
    Option String :=
  jsOrStr envServiceRole (jsOrStr envSupabaseKey none)

/-- Line 12: `SUPABASE_SERVICE_ROLE_KEY || SUPABASE_ANON_KEY` — the key
every request uses, silently falling back to the anon key. -/
def SUPABASE_KEY (envServiceRole envSupabaseKey envAnon : Option String) :
    Option String :=
  jsOrStr (SUPABASE_SERVICE_ROLE_KEY envServiceRole envSupabaseKey) envAnon

/-- Lines 64-66: `supabaseFetch` throws per request when the URL or the
selected key is missing; there is no corresponding check at module load. -/
def supabaseFetchGuardThrows (url key : Option String) : Bool :=
  !(jsTruthyStr url && jsTruthyStr key)

-- ------------------------------------------------------------------
-- module.exports dispatcher (lines 1255-1352)
-- ------------------------------------------------------------------

/-- A parsed POST body.  `initData` abstracts the signed identity
payload: `none` when the field is absent and `some v` when present with
`v` the verdict of `validateInitData` (an HMAC-SHA256 recomputation plus
a 20-minute freshness window, lines 236-287). -/
structure Request where
  rtype : Option String
  initData : Option Bool
  user_id : Option Nat
  action_id : Option String
  referrer_id : Option Nat
  referee_id : Option Nat
  source_reward : Option ℚ
  amount : Option ℚ
  binanceId : Option String
  faucetpay_email : Option String
  task_id : Option Nat

/-- JavaScript truthiness of `body.user_id` (missing or zero is falsy). -/
def reqUserIdMissing (r : Request) : Bool :=
  match r.user_id with
  | some n => decide (n = 0)
  | none => true

/-- Lines 1255-1352: the initData gate (every type except `commission`,
line 1295), the user-id gate (line 1299), then the type switch.  The
handlers this file does not model (plain reads, registration, token
minting, contest endpoints) are taken as a parameter `other`; the
default branch is the code's unknown-type 400. -/
def routeRequest (now randomIndex : Nat) (botToken : Option String) (memb : TgOutcome)
    (other : String → Store → Resp × Store) (req : Request) (st : Store) : Resp × Store :=
  match req.rtype with
  | none => (.err 400 "Missing type field in the request body.", st)
  | some t =>
    if t ≠ "commission" ∧ req.initData ≠ some true then
      (.err 401 "Invalid or expired initData. Security check failed.", st)
    else if reqUserIdMissing req = true ∧ t ≠ "commission" then
      (.err 400 "Missing user_id in the request body.", st)
    else
      match t with
      | "watchAd" => handleWatchAd now (req.user_id.getD 0) req.action_id st
      | "commission" => handleCommission req.referrer_id req.referee_id req.source_reward st
      | "spinResult" => handleSpinResult now randomIndex (req.user_id.getD 0) req.action_id st
      | "withdraw" => handleWithdraw now (req.user_id.getD 0) req.action_id req.amount
          req.binanceId req.faucetpay_email st
      | "completeTask" => handleCompleteTask now (req.user_id.getD 0) req.action_id
          req.task_id botToken memb st
      | "taskLinkClick" => handleTaskLinkClick now (req.user_id.getD 0) req.action_id st
      | "getUserData" => other "getUserData" st
      | "getTasks" => other "getTasks" st
      | "register" => other "register" st
      | "preSpin" => other "preSpin" st
      | "generateActionId" => other "generateActionId" st
      | "getContestData" => other "getContestData" st
      | "contestWatchAd" => other "contestWatchAd" st
      | "getContestRank" => other "getContestRank" st
      | _ => (.err 400 ("Unknown request type: " ++ t), st)

-- ------------------------------------------------------------------
-- Store and reset helper lemmas
-- ------------------------------------------------------------------

theorem users_updateUser_self (st : Store) (uid : Nat) (f : UserRec → UserRec) :
    (updateUser st uid f).users uid = (st.users uid).map f := by
  simp [updateUser]

theorem users_updateUser_ne (st : Store) (uid n : Nat) (f : UserRec → UserRec)
    (h : n ≠ uid) : (updateUser st uid f).users n = st.users n := by
  simp [updateUser, h]

theorem temp_updateUser (st : Store) (uid : Nat) (f : UserRec → UserRec) :
    (updateUser st uid f).temp_actions = st.temp_actions := rfl

theorem reset_users_self (now uid : Nat) (st : Store) (u : UserRec)
    (hu : st.users uid = some u) :
    (resetDailyLimitsIfExpired now uid st).users uid = some (resetUserRec now u) := by
  simp [resetDailyLimitsIfExpired, hu, updateUser]

theorem reset_temp (now uid : Nat) (st : Store) :
    (resetDailyLimitsIfExpired now uid st).temp_actions = st.temp_actions := by
  cases h : st.users uid <;> simp [resetDailyLimitsIfExpired, h, updateUser]

theorem resetUserRec_ads (now : Nat) (u : UserRec) :
    (resetUserRec now u).ads_watched_today =
      (if adsResetDue now u then 0 else u.ads_watched_today) := by
  cases hA : adsResetDue now u <;> cases hS : spinsResetDue now u <;>
    cases hT : tlResetDue now u <;> simp [resetUserRec, hA, hS, hT]

theorem resetUserRec_adsAt (now : Nat) (u : UserRec) :
    (resetUserRec now u).ads_limit_reached_at =
      (if adsResetDue now u then none else u.ads_limit_reached_at) := by
  cases hA : adsResetDue now u <;> cases hS : spinsResetDue now u <;>
    cases hT : tlResetDue now u <;> simp [resetUserRec, hA, hS, hT]

theorem resetUserRec_spins (now : Nat) (u : UserRec) :
    (resetUserRec now u).spins_today =
      (if spinsResetDue now u then 0 else u.spins_today) := by
  cases hA : adsResetDue now u <;> cases hS : spinsResetDue now u <;>
    cases hT : tlResetDue now u <;> simp [resetUserRec, hA, hS, hT]

theorem resetUserRec_spinsAt (now : Nat) (u : UserRec) :
    (resetUserRec now u).spins_limit_reached_at =
      (if spinsResetDue now u then none else u.spins_limit_reached_at) := by
  cases hA : adsResetDue now u <;> cases hS : spinsResetDue now u <;>
    cases hT : tlResetDue now u <;> simp [resetUserRec, hA, hS, hT]

theorem resetUserRec_tl (now : Nat) (u : UserRec) :
    (resetUserRec now u).task_link_clicks_today =
      (if tlResetDue now u then 0 else u.task_link_clicks_today) := by
  cases hA : adsResetDue now u <;> cases hS : spinsResetDue now u <;>
    cases hT : tlResetDue now u <;> simp [resetUserRec, hA, hS, hT]

theorem resetUserRec_tlAt (now : Nat) (u : UserRec) :
    (resetUserRec now u).task_link_limit_reached_at =
      (if tlResetDue now u then none else u.task_link_limit_reached_at) := by
  cases hA : adsResetDue now u <;> cases hS : spinsResetDue now u <;>
    cases hT : tlResetDue now u <;> simp [resetUserRec, hA, hS, hT]

theorem resetUserRec_balance (now : Nat) (u : UserRec) :
    (resetUserRec now u).balance = u.balance := by
  cases hA : adsResetDue now u <;> cases hS : spinsResetDue now u <;>
    cases hT : tlResetDue now u <;> simp [resetUserRec, hA, hS, hT]

theorem resetUserRec_last_activity (now : Nat) (u : UserRec) :
    (resetUserRec now u).last_activity = u.last_activity := by
  cases hA : adsResetDue now u <;> cases hS : spinsResetDue now u <;>
    cases hT : tlResetDue now u <;> simp [resetUserRec, hA, hS, hT]

theorem resetUserRec_is_banned (now : Nat) (u : UserRec) :
    (resetUserRec now u).is_banned = u.is_banned := by
  cases hA : adsResetDue now u <;> cases hS : spinsResetDue now u <;>
    cases hT : tlResetDue now u <;> simp [resetUserRec, hA, hS, hT]

theorem resetUserRec_ref_by (now : Nat) (u : UserRec) :
    (resetUserRec now u).ref_by = u.ref_by := by
  cases hA : adsResetDue now u <;> cases hS : spinsResetDue now u <;>
    cases hT : tlResetDue now u <;> simp [resetUserRec, hA, hS, hT]

theorem resetUserRec_shadow (now : Nat) (u : UserRec) :
    (resetUserRec now u).shadow_ban = u.shadow_ban := by
  cases hA : adsResetDue now u <;> cases hS : spinsResetDue now u <;>
    cases hT : tlResetDue now u <;> simp [resetUserRec, hA, hS, hT]

theorem adsResetDue_iff (now : Nat) (u : UserRec) (t : Nat)
    (ht : u.ads_limit_reached_at = some t) :
    adsResetDue now u = true ↔
      (DAILY_MAX_ADS ≤ u.ads_watched_today ∧
       (RESET_INTERVAL_MS : ℤ) < (now : ℤ) - (t : ℤ)) := by
  simp [adsResetDue, ht]

theorem spinsResetDue_iff (now : Nat) (u : UserRec) (t : Nat)
    (ht : u.spins_limit_reached_at = some t) :
    spinsResetDue now u = true ↔
      (DAILY_MAX_SPINS ≤ u.spins_today ∧
       (RESET_INTERVAL_MS : ℤ) < (now : ℤ) - (t : ℤ)) := by
  simp [spinsResetDue, ht]

theorem tlResetDue_iff (now : Nat) (u : UserRec) (t : Nat)
    (ht : u.task_link_limit_reached_at = some t) :
    tlResetDue now u = true ↔
      (TASK_LINK_DAILY_MAX ≤ u.task_link_clicks_today ∧
       (RESET_INTERVAL_MS : ℤ) < (now : ℤ) - (t : ℤ)) := by
  simp [tlResetDue, ht]

/-- An empty backing store, the base of the concrete witness stores. -/
def emptyStore : Store :=
  ⟨fun _ => none, [], fun _ => none, [], [], [], [], [], []⟩

/-- Witness user for C5: at the ads cap with a six-hour-old marker. -/
def c5User : UserRec :=
  ⟨50, 200, 3, 0, some 50000, none, none, none, false, false, none⟩

/-- Witness store for C5. -/
def c5Store : Store :=
  { emptyStore with users := fun n => if n = 9 then some c5User else none }

theorem processCommission_temp (a b : Option Nat) (r : ℚ) (st : Store) :
    (processCommission a b r st).2.temp_actions = st.temp_actions := by
  unfold processCommission
  by_cases hc : r * REFERRAL_COMMISSION_RATE < 1 / 1000000
  · rw [if_pos hc]
  · rw [if_neg hc]
    cases a with
    | none => rfl
    | some rid =>
      cases h : st.users rid with
      | none => simp only [h]
      | some refUser =>
        simp only [h]
        by_cases hb : refUser.is_banned = true
        · rw [if_pos hb]
        · rw [if_neg hb]; rfl

theorem processCommission_users_ne (a b : Option Nat) (r : ℚ) (n : Nat) {st : Store}
    (hne : a ≠ some n) : (processCommission a b r st).2.users n = st.users n := by
  unfold processCommission
  by_cases hc : r * REFERRAL_COMMISSION_RATE < 1 / 1000000
  · rw [if_pos hc]
  · rw [if_neg hc]
    cases a with
    | none => rfl
    | some rid =>
      have hrn : n ≠ rid := fun he => hne (by simp [he])
      cases h : st.users rid with
      | none => simp only [h]
      | some refUser =>
        simp only [h]
        by_cases hb : refUser.is_banned = true
        · rw [if_pos hb]
        · rw [if_neg hb]
          show (updateUser st rid _).users n = st.users n
          exact users_updateUser_ne st rid n _ hrn

-- ------------------------------------------------------------------
-- Action-token lemmas
-- ------------------------------------------------------------------

/-- The stored tokens are pairwise distinguished by their high-entropy
identifier (64 random hex characters, `generateStrongId`). -/
def actionIdUnique (ta : List TempAction) : Prop :=
  ∀ r ∈ ta, ∀ s ∈ ta, r.actionId = s.actionId → r = s

theorem matchesToken_actionId {uid : Nat} {aid atype : String} {r : TempAction}
    (h : matchesToken uid aid atype r = true) : r.actionId = aid := by
  simp only [matchesToken, Bool.and_eq_true, decide_eq_true_eq] at h
  exact h.1.2

/-- When validation consumes a token, or discovers and deletes an
expired one, the resulting store is the input store minus the matched
row. -/
theorem consumed_store {now uid : Nat} {aid atype : String} {ta ta' : List TempAction}
    {tc : TokenCheck}
    (h : validateAndUseActionId now uid (some aid) atype ta = (tc, ta'))
    (htc : tc = TokenCheck.okConsumed ∨ tc = TokenCheck.expired) :
    ∃ rec, rec ∈ ta ∧ matchesToken uid aid atype rec = true ∧
      ta' = ta.filter (fun r => !decide (r.rowId = rec.rowId)) := by
  rcases hfl : ta.filter (matchesToken uid aid atype) with _ | ⟨rec0, rest⟩
  · simp only [validateAndUseActionId, hfl, List.head?_nil] at h
    rcases htc with h1 | h1 <;> subst h1 <;> simp at h
  · have hmem : rec0 ∈ ta.filter (matchesToken uid aid atype) := by
      rw [hfl]; exact List.mem_cons_self _ _
    rw [List.mem_filter] at hmem
    refine ⟨rec0, hmem.1, hmem.2, ?_⟩
    simp only [validateAndUseActionId, hfl, List.head?_cons] at h
    split at h <;> simp only [Prod.mk.injEq] at h <;> exact h.2.symm

/-- After the matched row is deleted, no row with the same identifier
remains, so a further validation reports `notFound`. -/
theorem second_validate_notFound {now' uid : Nat} {aid atype : String}
    {ta : List TempAction} {rec : TempAction}
    (huniq : actionIdUnique ta) (hmem : rec ∈ ta)
    (hm : matchesToken uid aid atype rec = true) :
    validateAndUseActionId now' uid (some aid) atype
        (ta.filter (fun r => !decide (r.rowId = rec.rowId))) =
      (TokenCheck.notFound, ta.filter (fun r => !decide (r.rowId = rec.rowId))) := by
  have hnil : (ta.filter (fun r => !decide (r.rowId = rec.rowId))).filter
      (matchesToken uid aid atype) = [] := by
    rw [List.filter_eq_nil_iff]
    intro a ha
    rw [List.mem_filter] at ha
    intro hma
    have haid : a.actionId = aid := matchesToken_actionId hma
    have hrid : rec.actionId = aid := matchesToken_actionId hm
    have : a = rec := huniq a ha.1 rec hmem (haid.trans hrid.symm)
    subst this
    simp at ha
  simp only [validateAndUseActionId, hnil, List.head?_nil]

/-- C2. An action token, once consumed by a successful validation or
deleted upon being found expired, can never be validated again: the
second attempt with the same identifier reports `notFound`, whose HTTP
status is 409 (the expired first access itself got 408); both are
non-200 and the second attempt grants no authorization. -/
theorem c2_token_single_use (now now' uid : Nat) (aid atype : String)
    (ta ta' : List TempAction) (huniq : actionIdUnique ta)
    (h : validateAndUseActionId now uid (some aid) atype ta = (TokenCheck.okConsumed, ta') ∨
         validateAndUseActionId now uid (some aid) atype ta = (TokenCheck.expired, ta')) :
    validateAndUseActionId now' uid (some aid) atype ta' = (TokenCheck.notFound, ta') ∧
    tokenHttpStatus TokenCheck.notFound = 409 ∧
    tokenHttpStatus TokenCheck.expired = 408 ∧
    (409 : Nat) ≠ 200 ∧ (408 : Nat) ≠ 200 ∧
    TokenCheck.notFound ≠ TokenCheck.okConsumed := by
  have hdel : ∃ rec, rec ∈ ta ∧ matchesToken uid aid atype rec = true ∧
      ta' = ta.filter (fun r => !decide (r.rowId = rec.rowId)) := by
    rcases h with h | h
    · exact consumed_store h (Or.inl rfl)
    · exact consumed_store h (Or.inr rfl)
  rcases hdel with ⟨rec, hmem, hm, hta⟩
  subst hta
  refine ⟨second_validate_notFound huniq hmem hm, rfl, rfl, by decide, by decide, by decide⟩

/-- Witness for C2 on a concrete one-row token store: the token is
consumed at time 2000 and a replay at time 3000 is rejected 409. -/
theorem c2_token_single_use_witness :
    actionIdUnique [⟨1, 5, "tok", "watchAd", 1000⟩] ∧
    (validateAndUseActionId 3000 5 (some "tok") "watchAd" [] = (TokenCheck.notFound, []) ∧
     tokenHttpStatus TokenCheck.notFound = 409 ∧
     tokenHttpStatus TokenCheck.expired = 408 ∧
     (409 : Nat) ≠ 200 ∧ (408 : Nat) ≠ 200 ∧
     TokenCheck.notFound ≠ TokenCheck.okConsumed) :=
  ⟨by unfold actionIdUnique; decide,
   c2_token_single_use 2000 3000 5 "tok" "watchAd" [⟨1, 5, "tok", "watchAd", 1000⟩] []
     (by unfold actionIdUnique; decide) (Or.inl (by decide))⟩

-- ------------------------------------------------------------------
-- Handler characterization lemmas
-- ------------------------------------------------------------------

/-- Error message paired with each failing token outcome. -/
def tokenMsg : TokenCheck → String
  | .missing => msgMissingToken
  | .notFound => msgUsedToken
  | .expired => msgExpiredToken
  | .okConsumed => ""

theorem users_updateUser_some (st : Store) (uid : Nat) (v : UserRec)
    (f : UserRec → UserRec) (hv : st.users uid = some v) :
    (updateUser st uid f).users uid = some (f v) := by
  rw [users_updateUser_self, hv]
  rfl

theorem processCommission_userFields (a b : Option Nat) (r : ℚ) {st : Store}
    {n : Nat} {u : UserRec} (hu : st.users n = some u) :
    ∃ u', (processCommission a b r st).2.users n = some u' ∧
      u'.ads_watched_today = u.ads_watched_today ∧
      u'.spins_today = u.spins_today ∧
      u'.task_link_clicks_today = u.task_link_clicks_today ∧
      u'.ads_limit_reached_at = u.ads_limit_reached_at ∧
      u'.spins_limit_reached_at = u.spins_limit_reached_at ∧
      u'.task_link_limit_reached_at = u.task_link_limit_reached_at ∧
      u'.last_activity = u.last_activity ∧
      u'.is_banned = u.is_banned := by
  unfold processCommission
  by_cases hc : r * REFERRAL_COMMISSION_RATE < 1 / 1000000
  · rw [if_pos hc]
    exact ⟨u, hu, rfl, rfl, rfl, rfl, rfl, rfl, rfl, rfl⟩
  · rw [if_neg hc]
    cases a with
    | none => exact ⟨u, hu, rfl, rfl, rfl, rfl, rfl, rfl, rfl, rfl⟩
    | some rid =>
      cases h : st.users rid with
      | none =>
        simp only [h]
        exact ⟨u, hu, rfl, rfl, rfl, rfl, rfl, rfl, rfl, rfl⟩
      | some refUser =>
        simp only [h]
        by_cases hb : refUser.is_banned = true
        · rw [if_pos hb]
          exact ⟨u, hu, rfl, rfl, rfl, rfl, rfl, rfl, rfl, rfl⟩
        · rw [if_neg hb]
          by_cases hn : n = rid
          · subst hn
            obtain rfl : refUser = u := by
              rw [hu] at h
              exact (Option.some_inj.mp h).symm
            refine ⟨{ refUser with balance := refUser.balance + r * REFERRAL_COMMISSION_RATE },
              ?_, rfl, rfl, rfl, rfl, rfl, rfl, rfl, rfl⟩
            show (updateUser st n _).users n = _
            rw [users_updateUser_self, h]
            rfl
          · refine ⟨u, ?_, rfl, rfl, rfl, rfl, rfl, rfl, rfl, rfl⟩
            show (updateUser st rid _).users n = some u
            rw [users_updateUser_ne st rid n _ hn, hu]

theorem processCommission_credit (b : Option Nat) (r : ℚ) (st : Store)
    (rid : Nat) (refUser : UserRec) (h : st.users rid = some refUser)
    (hban : refUser.is_banned = false)
    (hc : ¬(r * REFERRAL_COMMISSION_RATE < 1 / 1000000)) :
    (processCommission (some rid) b r st).1 =
      some (refUser.balance + r * REFERRAL_COMMISSION_RATE) ∧
    (processCommission (some rid) b r st).2.users rid =
      some { refUser with balance := refUser.balance + r * REFERRAL_COMMISSION_RATE } := by
  unfold processCommission
  rw [if_neg hc]
  simp only [h]
  rw [if_neg (by rw [hban]; exact Bool.false_ne_true)]
  constructor
  · rfl
  · show (updateUser st rid _).users rid = _
    rw [users_updateUser_self, h]
    rfl

theorem watchAdPersist_self (now uid : Nat) (v : UserRec) (st : Store)
    (hv : st.users uid = some v) :
    ∃ u', (watchAdPersist now uid v st).users uid = some u' ∧
      u'.ads_watched_today = v.ads_watched_today + 1 ∧
      u'.spins_today = v.spins_today ∧
      u'.task_link_clicks_today = v.task_link_clicks_today ∧
      u'.last_activity = some now ∧
      u'.is_banned = v.is_banned ∧
      (v.ref_by ≠ some uid → u'.balance = v.balance + REWARD_PER_AD) := by
  unfold watchAdPersist
  have h2 := users_updateUser_some st uid v
    (fun w =>
      { w with
        balance := v.balance + REWARD_PER_AD,
        ads_watched_today := v.ads_watched_today + 1,
        last_activity := some now,
        ads_limit_reached_at :=
          if DAILY_MAX_ADS ≤ v.ads_watched_today + 1 then some now
          else w.ads_limit_reached_at }) hv
  cases href : v.ref_by with
  | none =>
    exact ⟨_, h2, rfl, rfl, rfl, rfl, rfl, fun _ => rfl⟩
  | some rid =>
    rcases processCommission_userFields (some rid) (some uid) REWARD_PER_AD h2 with
      ⟨u', hu', hp1, hp2, hp3, _, _, _, hp7, hp8⟩
    refine ⟨u', hu', by rw [hp1], by rw [hp2], by rw [hp3], by rw [hp7],
      by rw [hp8], ?_⟩
    intro hne
    have hrid : ¬((some rid : Option Nat) = some uid) := href ▸ hne
    rw [processCommission_users_ne (some rid) (some uid) REWARD_PER_AD uid hrid, h2] at hu'
    cases hu'
    rfl

theorem spinPersist_self (now uid : Nat) (prize : ℚ) (v : UserRec) (st : Store)
    (hv : st.users uid = some v) :
    ∃ u', (spinPersist now uid prize v st).users uid = some u' ∧
      u'.ads_watched_today = v.ads_watched_today ∧
      u'.spins_today = v.spins_today + 1 ∧
      u'.task_link_clicks_today = v.task_link_clicks_today ∧
      u'.last_activity = some now ∧
      u'.is_banned = v.is_banned ∧
      u'.balance = v.balance + prize := by
  unfold spinPersist
  exact ⟨_, users_updateUser_some st uid v
    (fun w =>
      { w with
        balance := v.balance + prize,
        spins_today := v.spins_today + 1,
        last_activity := some now,
        spins_limit_reached_at :=
          if DAILY_MAX_SPINS ≤ v.spins_today + 1 then some now
          else w.spins_limit_reached_at }) hv, rfl, rfl, rfl, rfl, rfl, rfl⟩

theorem taskLinkPersist_self (now uid : Nat) (v : UserRec) (st : Store)
    (hv : st.users uid = some v) :
    ∃ u', (taskLinkPersist now uid v st).users uid = some u' ∧
      u'.ads_watched_today = v.ads_watched_today ∧
      u'.spins_today = v.spins_today ∧
      u'.task_link_clicks_today = v.task_link_clicks_today + 1 ∧
      u'.last_activity = some now ∧
      u'.is_banned = v.is_banned ∧
      (v.ref_by ≠ some uid → u'.balance = v.balance + TASK_LINK_REWARD) := by
  unfold taskLinkPersist
  have h2 := users_updateUser_some st uid v
    (fun w =>
      { w with
        balance := v.balance + TASK_LINK_REWARD,
        task_link_clicks_today := v.task_link_clicks_today + 1,
        last_activity := some now,
        task_link_limit_reached_at :=
          if TASK_LINK_DAILY_MAX ≤ v.task_link_clicks_today + 1 then some now
          else w.task_link_limit_reached_at }) hv
  have h3 : ({ updateUser st uid (fun w =>
      { w with
        balance := v.balance + TASK_LINK_REWARD,
        task_link_clicks_today := v.task_link_clicks_today + 1,
        last_activity := some now,
        task_link_limit_reached_at :=
          if TASK_LINK_DAILY_MAX ≤ v.task_link_clicks_today + 1 then some now
          else w.task_link_limit_reached_at }) with
      task_link_clicks := (uid, TASK_LINK_REWARD) ::
        (updateUser st uid (fun w =>
          { w with
            balance := v.balance + TASK_LINK_REWARD,
            task_link_clicks_today := v.task_link_clicks_today + 1,
            last_activity := some now,
            task_link_limit_reached_at :=
              if TASK_LINK_DAILY_MAX ≤ v.task_link_clicks_today + 1 then some now
              else w.task_link_limit_reached_at })).task_link_clicks } : Store).users uid =
      some ((fun w =>
        { w with
          balance := v.balance + TASK_LINK_REWARD,
          task_link_clicks_today := v.task_link_clicks_today + 1,
          last_activity := some now,
          task_link_limit_reached_at :=
            if TASK_LINK_DAILY_MAX ≤ v.task_link_clicks_today + 1 then some now
            else w.task_link_limit_reached_at }) v) := h2
  cases href : v.ref_by with
  | none =>
    exact ⟨_, h3, rfl, rfl, rfl, rfl, rfl, fun _ => rfl⟩
  | some rid =>
    rcases processCommission_userFields (some rid) (some uid) TASK_LINK_REWARD h3 with
      ⟨u', hu', hp1, hp2, hp3, _, _, _, hp7, hp8⟩
    refine ⟨u', hu', by rw [hp1], by rw [hp2], by rw [hp3], by rw [hp7],
      by rw [hp8], ?_⟩
    intro hne
    have hrid : ¬((some rid : Option Nat) = some uid) := href ▸ hne
    rw [processCommission_users_ne (some rid) (some uid) TASK_LINK_REWARD uid hrid, h3] at hu'
    cases hu'
    rfl

theorem checkRateLimit_eq (now uid : Nat) (st : Store) (v : UserRec)
    (hv : st.users uid = some v) : checkRateLimit now uid st = rateOk now v := by
  simp [checkRateLimit, hv]

theorem rateOk_reset (now n : Nat) (u : UserRec) :
    rateOk n (resetUserRec now u) = rateOk n u := by
  unfold rateOk
  rw [resetUserRec_last_activity]

theorem watchAdChecked_cases (now uid : Nat) (st : Store) (v : UserRec)
    (hv : st.users uid = some v) :
    (v.is_banned = true → watchAdChecked now uid st = (.err 403 msgBanned, st)) ∧
    (v.is_banned = false → rateOk now v = false →
      watchAdChecked now uid st = (.err 429 msgRate, st)) ∧
    (v.is_banned = false → rateOk now v = true → DAILY_MAX_ADS ≤ v.ads_watched_today →
      watchAdChecked now uid st = (.err 403 msgAdLimit, st)) ∧
    (v.is_banned = false → rateOk now v = true → v.ads_watched_today < DAILY_MAX_ADS →
      watchAdChecked now uid st =
        (.ok (some (v.balance + REWARD_PER_AD)) (some (v.ads_watched_today + 1)),
         watchAdPersist now uid v st)) := by
  have hr := checkRateLimit_eq now uid st v hv
  unfold watchAdChecked
  simp only [hv]
  refine ⟨?_, ?_, ?_, ?_⟩
  · intro hb
    rw [if_pos hb]
  · intro hb hrate
    rw [if_neg (by rw [hb]; exact Bool.false_ne_true), if_pos (hr.trans hrate)]
  · intro hb hrate hcap
    rw [if_neg (by rw [hb]; exact Bool.false_ne_true),
        if_neg (by rw [hr, hrate]; exact (by decide)),
        if_pos hcap]
  · intro hb hrate hcap
    rw [if_neg (by rw [hb]; exact Bool.false_ne_true),
        if_neg (by rw [hr, hrate]; exact (by decide)),
        if_neg (not_le.mpr hcap)]

theorem spinChecked_cases (now randomIndex uid : Nat) (st : Store) (v : UserRec)
    (hv : st.users uid = some v) :
    (v.is_banned = true → spinChecked now randomIndex uid st = (.err 403 msgBanned, st)) ∧
    (v.is_banned = false → rateOk now v = false →
      spinChecked now randomIndex uid st = (.err 429 msgRate, st)) ∧
    (v.is_banned = false → rateOk now v = true → DAILY_MAX_SPINS ≤ v.spins_today →
      spinChecked now randomIndex uid st = (.err 403 msgSpinLimit, st)) ∧
    (v.is_banned = false → rateOk now v = true → v.spins_today < DAILY_MAX_SPINS →
      spinChecked now randomIndex uid st =
        (.ok (some (v.balance + SPIN_SECTORS.getD randomIndex 0)) (some (v.spins_today + 1)),
         spinPersist now uid (SPIN_SECTORS.getD randomIndex 0) v st)) := by
  have hr := checkRateLimit_eq now uid st v hv
  unfold spinChecked
  simp only [hv]
  refine ⟨?_, ?_, ?_, ?_⟩
  · intro hb
    rw [if_pos hb]
  · intro hb hrate
    rw [if_neg (by rw [hb]; exact Bool.false_ne_true), if_pos (hr.trans hrate)]
  · intro hb hrate hcap
    rw [if_neg (by rw [hb]; exact Bool.false_ne_true),
        if_neg (by rw [hr, hrate]; exact (by decide)),
        if_pos hcap]
  · intro hb hrate hcap
    rw [if_neg (by rw [hb]; exact Bool.false_ne_true),
        if_neg (by rw [hr, hrate]; exact (by decide)),
        if_neg (not_le.mpr hcap)]

theorem taskLinkChecked_cases (now uid : Nat) (st : Store) (v : UserRec)
    (hv : st.users uid = some v) :
    (v.is_banned = true → taskLinkChecked now uid st = (.err 403 msgBanned, st)) ∧
    (v.is_banned = false → rateOk now v = false →
      taskLinkChecked now uid st = (.err 429 msgRate, st)) ∧
    (v.is_banned = false → rateOk now v = true →
      TASK_LINK_DAILY_MAX ≤ v.task_link_clicks_today →
      taskLinkChecked now uid st = (.err 403 msgTaskLinkLimit, st)) ∧
    (v.is_banned = false → rateOk now v = true →
      v.task_link_clicks_today < TASK_LINK_DAILY_MAX →
      taskLinkChecked now uid st =
        (.ok (some (v.balance + TASK_LINK_REWARD)) (some (v.task_link_clicks_today + 1)),
         taskLinkPersist now uid v st)) := by
  have hr := checkRateLimit_eq now uid st v hv
  unfold taskLinkChecked
  simp only [hv]
  refine ⟨?_, ?_, ?_, ?_⟩
  · intro hb
    rw [if_pos hb]
  · intro hb hrate
    rw [if_neg (by rw [hb]; exact Bool.false_ne_true), if_pos (hr.trans hrate)]
  · intro hb hrate hcap
    rw [if_neg (by rw [hb]; exact Bool.false_ne_true),
        if_neg (by rw [hr, hrate]; exact (by decide)),
        if_pos hcap]
  · intro hb hrate hcap
    rw [if_neg (by rw [hb]; exact Bool.false_ne_true),
        if_neg (by rw [hr, hrate]; exact (by decide)),
        if_neg (not_le.mpr hcap)]

theorem handleWatchAd_token_ok (now uid : Nat) (aid : Option String) (st : Store)
    (ta2 : List TempAction)
    (hv : validateAndUseActionId now uid aid "watchAd" st.temp_actions =
      (TokenCheck.okConsumed, ta2)) :
    handleWatchAd now uid aid st =
      watchAdChecked now uid
        (resetDailyLimitsIfExpired now uid { st with temp_actions := ta2 }) := by
  unfold handleWatchAd
  rw [hv]

theorem handleWatchAd_token_err (now uid : Nat) (aid : Option String) (st : Store)
    (tc : TokenCheck) (ta2 : List TempAction)
    (hv : validateAndUseActionId now uid aid "watchAd" st.temp_actions = (tc, ta2))
    (htc : tc ≠ TokenCheck.okConsumed) :
    handleWatchAd now uid aid st =
      (.err (tokenHttpStatus tc) (tokenMsg tc), { st with temp_actions := ta2 }) := by
  unfold handleWatchAd
  rw [hv]
  cases tc with
  | missing => rfl
  | notFound => rfl
  | expired => rfl
  | okConsumed => exact absurd rfl htc

theorem handleSpinResult_token_ok (now randomIndex uid : Nat) (aid : Option String)
    (st : Store) (ta2 : List TempAction)
    (hv : validateAndUseActionId now uid aid "spinResult" st.temp_actions =
      (TokenCheck.okConsumed, ta2)) :
    handleSpinResult now randomIndex uid aid st =
      spinChecked now randomIndex uid
        (resetDailyLimitsIfExpired now uid { st with temp_actions := ta2 }) := by
  unfold handleSpinResult
  rw [hv]

theorem handleSpinResult_token_err (now randomIndex uid : Nat) (aid : Option String)
    (st : Store) (tc : TokenCheck) (ta2 : List TempAction)
    (hv : validateAndUseActionId now uid aid "spinResult" st.temp_actions = (tc, ta2))
    (htc : tc ≠ TokenCheck.okConsumed) :
    handleSpinResult now randomIndex uid aid st =
      (.err (tokenHttpStatus tc) (tokenMsg tc), { st with temp_actions := ta2 }) := by
  unfold handleSpinResult
  rw [hv]
  cases tc with
  | missing => rfl
  | notFound => rfl
  | expired => rfl
  | okConsumed => exact absurd rfl htc

theorem handleTaskLinkClick_token_ok (now uid : Nat) (aid : Option String) (st : Store)
    (ta2 : List TempAction)
    (hv : validateAndUseActionId now uid aid "taskLink" st.temp_actions =
      (TokenCheck.okConsumed, ta2)) :
    handleTaskLinkClick now uid aid st =
      taskLinkChecked now uid
        (resetDailyLimitsIfExpired now uid { st with temp_actions := ta2 }) := by
  unfold handleTaskLinkClick
  rw [hv]

theorem handleTaskLinkClick_token_err (now uid : Nat) (aid : Option String) (st : Store)
    (tc : TokenCheck) (ta2 : List TempAction)
    (hv : validateAndUseActionId now uid aid "taskLink" st.temp_actions = (tc, ta2))
    (htc : tc ≠ TokenCheck.okConsumed) :
    handleTaskLinkClick now uid aid st =
      (.err (tokenHttpStatus tc) (tokenMsg tc), { st with temp_actions := ta2 }) := by
  unfold handleTaskLinkClick
  rw [hv]
  cases tc with
  | missing => rfl
  | notFound => rfl
  | expired => rfl
  | okConsumed => exact absurd rfl htc

-- ------------------------------------------------------------------
-- C4: daily counters never exceed their caps
-- ------------------------------------------------------------------

/-- All three daily counters are within their configured caps. -/
def capsOk (w : UserRec) : Prop :=
  w.ads_watched_today ≤ DAILY_MAX_ADS ∧ w.spins_today ≤ DAILY_MAX_SPINS ∧
  w.task_link_clicks_today ≤ TASK_LINK_DAILY_MAX

theorem capsOk_reset (now : Nat) (u : UserRec) (h : capsOk u) :
    capsOk (resetUserRec now u) := by
  obtain ⟨h1, h2, h3⟩ := h
  refine ⟨?_, ?_, ?_⟩
  · rw [resetUserRec_ads]; split
    · exact Nat.zero_le _
    · exact h1
  · rw [resetUserRec_spins]; split
    · exact Nat.zero_le _
    · exact h2
  · rw [resetUserRec_tl]; split
    · exact Nat.zero_le _
    · exact h3

theorem handleWatchAd_capsOk (now uid : Nat) (aid : Option String) (st : Store)
    (u : UserRec) (hu : st.users uid = some u) (hcaps : capsOk u) :
    ∀ u', ((handleWatchAd now uid aid st).2).users uid = some u' → capsOk u' := by
  intro u' hu'
  rcases hv : validateAndUseActionId now uid aid "watchAd" st.temp_actions with ⟨tc, ta2⟩
  by_cases htc : tc = TokenCheck.okConsumed
  · subst htc
    rw [handleWatchAd_token_ok now uid aid st ta2 hv] at hu'
    have hv1 : (resetDailyLimitsIfExpired now uid
        { st with temp_actions := ta2 }).users uid = some (resetUserRec now u) :=
      reset_users_self now uid _ u hu
    have hcv : capsOk (resetUserRec now u) := capsOk_reset now u hcaps
    obtain ⟨c1, c2, c3, c4⟩ := watchAdChecked_cases now uid _ _ hv1
    by_cases hb : (resetUserRec now u).is_banned = true
    · rw [c1 hb] at hu'
      rw [hv1] at hu'
      cases hu'
      exact hcv
    · have hb' : (resetUserRec now u).is_banned = false := by
        cases hx : (resetUserRec now u).is_banned
        · rfl
        · exact absurd hx hb
      by_cases hrate : rateOk now (resetUserRec now u) = true
      · by_cases hcap : DAILY_MAX_ADS ≤ (resetUserRec now u).ads_watched_today
        · rw [c3 hb' hrate hcap] at hu'
          rw [hv1] at hu'
          cases hu'
          exact hcv
        · rw [c4 hb' hrate (not_le.mp hcap)] at hu'
          obtain ⟨w, hw, hw1, hw2, hw3, _, _, _⟩ :=
            watchAdPersist_self now uid (resetUserRec now u) _ hv1
          rw [hw] at hu'
          cases hu'
          refine ⟨?_, ?_, ?_⟩
          · rw [hw1]; exact Nat.succ_le_of_lt (not_le.mp hcap)
          · rw [hw2]; exact hcv.2.1
          · rw [hw3]; exact hcv.2.2
      · have hrate' : rateOk now (resetUserRec now u) = false := by
          cases hx : rateOk now (resetUserRec now u)
          · rfl
          · exact absurd hx hrate
        rw [c2 hb' hrate'] at hu'
        rw [hv1] at hu'
        cases hu'
        exact hcv
  · rw [handleWatchAd_token_err now uid aid st tc ta2 hv htc] at hu'
    have : st.users uid = some u' := hu'
    rw [hu] at this
    cases this
    exact hcaps

theorem handleSpinResult_capsOk (now randomIndex uid : Nat) (aid : Option String)
    (st : Store) (u : UserRec) (hu : st.users uid = some u) (hcaps : capsOk u) :
    ∀ u', ((handleSpinResult now randomIndex uid aid st).2).users uid = some u' →
      capsOk u' := by
  intro u' hu'
  rcases hv : validateAndUseActionId now uid aid "spinResult" st.temp_actions with ⟨tc, ta2⟩
  by_cases htc : tc = TokenCheck.okConsumed
  · subst htc
    rw [handleSpinResult_token_ok now randomIndex uid aid st ta2 hv] at hu'
    have hv1 : (resetDailyLimitsIfExpired now uid
        { st with temp_actions := ta2 }).users uid = some (resetUserRec now u) :=
      reset_users_self now uid _ u hu
    have hcv : capsOk (resetUserRec now u) := capsOk_reset now u hcaps
    obtain ⟨c1, c2, c3, c4⟩ := spinChecked_cases now randomIndex uid _ _ hv1
    by_cases hb : (resetUserRec now u).is_banned = true
    · rw [c1 hb] at hu'
      rw [hv1] at hu'
      cases hu'
      exact hcv
    · have hb' : (resetUserRec now u).is_banned = false := by
        cases hx : (resetUserRec now u).is_banned
        · rfl
        · exact absurd hx hb
      by_cases hrate : rateOk now (resetUserRec now u) = true
      · by_cases hcap : DAILY_MAX_SPINS ≤ (resetUserRec now u).spins_today
        · rw [c3 hb' hrate hcap] at hu'
          rw [hv1] at hu'
          cases hu'
          exact hcv
        · rw [c4 hb' hrate (not_le.mp hcap)] at hu'
          obtain ⟨w, hw, hw1, hw2, hw3, _, _, _⟩ :=
            spinPersist_self now uid _ (resetUserRec now u) _ hv1
          rw [hw] at hu'
          cases hu'
          refine ⟨?_, ?_, ?_⟩
          · rw [hw1]; exact hcv.1
          · rw [hw2]; exact Nat.succ_le_of_lt (not_le.mp hcap)
          · rw [hw3]; exact hcv.2.2
      · have hrate' : rateOk now (resetUserRec now u) = false := by
          cases hx : rateOk now (resetUserRec now u)
          · rfl
          · exact absurd hx hrate
        rw [c2 hb' hrate'] at hu'
        rw [hv1] at hu'
        cases hu'
        exact hcv
  · rw [handleSpinResult_token_err now randomIndex uid aid st tc ta2 hv htc] at hu'
    have : st.users uid = some u' := hu'
    rw [hu] at this
    cases this
    exact hcaps

theorem handleTaskLinkClick_capsOk (now uid : Nat) (aid : Option String)
    (st : Store) (u : UserRec) (hu : st.users uid = some u) (hcaps : capsOk u) :
    ∀ u', ((handleTaskLinkClick now uid aid st).2).users uid = some u' → capsOk u' := by
  intro u' hu'
  rcases hv : validateAndUseActionId now uid aid "taskLink" st.temp_actions with ⟨tc, ta2⟩
  by_cases htc : tc = TokenCheck.okConsumed
  · subst htc
    rw [handleTaskLinkClick_token_ok now uid aid st ta2 hv] at hu'
    have hv1 : (resetDailyLimitsIfExpired now uid
        { st with temp_actions := ta2 }).users uid = some (resetUserRec now u) :=
      reset_users_self now uid _ u hu
    have hcv : capsOk (resetUserRec now u) := capsOk_reset now u hcaps
    obtain ⟨c1, c2, c3, c4⟩ := taskLinkChecked_cases now uid _ _ hv1
    by_cases hb : (resetUserRec now u).is_banned = true
    · rw [c1 hb] at hu'
      rw [hv1] at hu'
      cases hu'
      exact hcv
    · have hb' : (resetUserRec now u).is_banned = false := by
        cases hx : (resetUserRec now u).is_banned
        · rfl
        · exact absurd hx hb
      by_cases hrate : rateOk now (resetUserRec now u) = true
      · by_cases hcap : TASK_LINK_DAILY_MAX ≤ (resetUserRec now u).task_link_clicks_today
        · rw [c3 hb' hrate hcap] at hu'
          rw [hv1] at hu'
          cases hu'
          exact hcv
        · rw [c4 hb' hrate (not_le.mp hcap)] at hu'
          obtain ⟨w, hw, hw1, hw2, hw3, _, _, _⟩ :=
            taskLinkPersist_self now uid (resetUserRec now u) _ hv1
          rw [hw] at hu'
          cases hu'
          refine ⟨?_, ?_, ?_⟩
          · rw [hw1]; exact hcv.1
          · rw [hw2]; exact hcv.2.1
          · rw [hw3]; exact Nat.succ_le_of_lt (not_le.mp hcap)
      · have hrate' : rateOk now (resetUserRec now u) = false := by
          cases hx : rateOk now (resetUserRec now u)
          · rfl
          · exact absurd hx hrate
        rw [c2 hb' hrate'] at hu'
        rw [hv1] at hu'
        cases hu'
        exact hcv
  · rw [handleTaskLinkClick_token_err now uid aid st tc ta2 hv htc] at hu'
    have : st.users uid = some u' := hu'
    rw [hu] at this
    cases this
    exact hcaps

theorem handleWatchAd_capReject (now uid : Nat) (aid : Option String) (st : Store)
    (u : UserRec) (ta2 : List TempAction) (hu : st.users uid = some u)
    (hv : validateAndUseActionId now uid aid "watchAd" st.temp_actions =
      (TokenCheck.okConsumed, ta2))
    (hcap : DAILY_MAX_ADS ≤ u.ads_watched_today) (hdue : adsResetDue now u = false)
    (hb : u.is_banned = false) (hr : rateOk now u = true) :
    (handleWatchAd now uid aid st).1 = .err 403 msgAdLimit ∧
    ∃ u', ((handleWatchAd now uid aid st).2).users uid = some u' ∧
      u'.ads_watched_today = u.ads_watched_today ∧ u'.balance = u.balance := by
  rw [handleWatchAd_token_ok now uid aid st ta2 hv]
  have hv1 : (resetDailyLimitsIfExpired now uid
      { st with temp_actions := ta2 }).users uid = some (resetUserRec now u) :=
    reset_users_self now uid _ u hu
  have hbv : (resetUserRec now u).is_banned = false := by
    rw [resetUserRec_is_banned]; exact hb
  have hrv : rateOk now (resetUserRec now u) = true := by
    rw [rateOk_reset]; exact hr
  have hadseq : (resetUserRec now u).ads_watched_today = u.ads_watched_today := by
    rw [resetUserRec_ads, hdue]
    simp
  have hcapv : DAILY_MAX_ADS ≤ (resetUserRec now u).ads_watched_today := by
    rw [hadseq]; exact hcap
  obtain ⟨c1, c2, c3, c4⟩ := watchAdChecked_cases now uid _ _ hv1
  rw [c3 hbv hrv hcapv]
  exact ⟨rfl, resetUserRec now u, hv1, hadseq, resetUserRec_balance now u⟩

theorem handleSpinResult_capReject (now randomIndex uid : Nat) (aid : Option String)
    (st : Store) (u : UserRec) (ta2 : List TempAction) (hu : st.users uid = some u)
    (hv : validateAndUseActionId now uid aid "spinResult" st.temp_actions =
      (TokenCheck.okConsumed, ta2))
    (hcap : DAILY_MAX_SPINS ≤ u.spins_today) (hdue : spinsResetDue now u = false)
    (hb : u.is_banned = false) (hr : rateOk now u = true) :
    (handleSpinResult now randomIndex uid aid st).1 = .err 403 msgSpinLimit ∧
    ∃ u', ((handleSpinResult now randomIndex uid aid st).2).users uid = some u' ∧
      u'.spins_today = u.spins_today ∧ u'.balance = u.balance := by
  rw [handleSpinResult_token_ok now randomIndex uid aid st ta2 hv]
  have hv1 : (resetDailyLimitsIfExpired now uid
      { st with temp_actions := ta2 }).users uid = some (resetUserRec now u) :=
    reset_users_self now uid _ u hu
  have hbv : (resetUserRec now u).is_banned = false := by
    rw [resetUserRec_is_banned]; exact hb
  have hrv : rateOk now (resetUserRec now u) = true := by
    rw [rateOk_reset]; exact hr
  have hspinseq : (resetUserRec now u).spins_today = u.spins_today := by
    rw [resetUserRec_spins, hdue]
    simp
  have hcapv : DAILY_MAX_SPINS ≤ (resetUserRec now u).spins_today := by
    rw [hspinseq]; exact hcap
  obtain ⟨c1, c2, c3, c4⟩ := spinChecked_cases now randomIndex uid _ _ hv1
  rw [c3 hbv hrv hcapv]
  exact ⟨rfl, resetUserRec now u, hv1, hspinseq, resetUserRec_balance now u⟩

theorem handleTaskLinkClick_capReject (now uid : Nat) (aid : Option String)
    (st : Store) (u : UserRec) (ta2 : List TempAction) (hu : st.users uid = some u)
    (hv : validateAndUseActionId now uid aid "taskLink" st.temp_actions =
      (TokenCheck.okConsumed, ta2))
    (hcap : TASK_LINK_DAILY_MAX ≤ u.task_link_clicks_today)
    (hdue : tlResetDue now u = false)
    (hb : u.is_banned = false) (hr : rateOk now u = true) :
    (handleTaskLinkClick now uid aid st).1 = .err 403 msgTaskLinkLimit ∧
    ∃ u', ((handleTaskLinkClick now uid aid st).2).users uid = some u' ∧
      u'.task_link_clicks_today = u.task_link_clicks_today ∧ u'.balance = u.balance := by
  rw [handleTaskLinkClick_token_ok now uid aid st ta2 hv]
  have hv1 : (resetDailyLimitsIfExpired now uid
      { st with temp_actions := ta2 }).users uid = some (resetUserRec now u) :=
    reset_users_self now uid _ u hu
  have hbv : (resetUserRec now u).is_banned = false := by
    rw [resetUserRec_is_banned]; exact hb
  have hrv : rateOk now (resetUserRec now u) = true := by
    rw [rateOk_reset]; exact hr
  have htleq : (resetUserRec now u).task_link_clicks_today = u.task_link_clicks_today := by
    rw [resetUserRec_tl, hdue]
    simp
  have hcapv : TASK_LINK_DAILY_MAX ≤ (resetUserRec now u).task_link_clicks_today := by
    rw [htleq]; exact hcap
  obtain ⟨c1, c2, c3, c4⟩ := taskLinkChecked_cases now uid _ _ hv1
  rw [c3 hbv hrv hcapv]
  exact ⟨rfl, resetUserRec now u, hv1, htleq, resetUserRec_balance now u⟩

/-- C4. For a user whose daily counters are within their caps, every
reward handler (ad-watch, spin, task-link click) keeps them within the
caps; and a request arriving with a counter already at its cap (and no
reset due) is rejected 403, leaving that counter and the balance
unchanged. -/
theorem c4_caps_invariant (now randomIndex uid : Nat) (aid : Option String)
    (st : Store) (u : UserRec) (hu : st.users uid = some u) (hcaps : capsOk u) :
    (∀ u', ((handleWatchAd now uid aid st).2).users uid = some u' → capsOk u') ∧
    (∀ u', ((handleSpinResult now randomIndex uid aid st).2).users uid = some u' →
      capsOk u') ∧
    (∀ u', ((handleTaskLinkClick now uid aid st).2).users uid = some u' → capsOk u') ∧
    (∀ ta2, validateAndUseActionId now uid aid "watchAd" st.temp_actions =
        (TokenCheck.okConsumed, ta2) →
      DAILY_MAX_ADS ≤ u.ads_watched_today → adsResetDue now u = false →
      u.is_banned = false → rateOk now u = true →
      (handleWatchAd now uid aid st).1 = .err 403 msgAdLimit ∧
      ∃ u', ((handleWatchAd now uid aid st).2).users uid = some u' ∧
        u'.ads_watched_today = u.ads_watched_today ∧ u'.balance = u.balance) ∧
    (∀ ta2, validateAndUseActionId now uid aid "spinResult" st.temp_actions =
        (TokenCheck.okConsumed, ta2) →
      DAILY_MAX_SPINS ≤ u.spins_today → spinsResetDue now u = false →
      u.is_banned = false → rateOk now u = true →
      (handleSpinResult now randomIndex uid aid st).1 = .err 403 msgSpinLimit ∧
      ∃ u', ((handleSpinResult now randomIndex uid aid st).2).users uid = some u' ∧
        u'.spins_today = u.spins_today ∧ u'.balance = u.balance) ∧
    (∀ ta2, validateAndUseActionId now uid aid "taskLink" st.temp_actions =
        (TokenCheck.okConsumed, ta2) →
      TASK_LINK_DAILY_MAX ≤ u.task_link_clicks_today → tlResetDue now u = false →
      u.is_banned = false → rateOk now u = true →
      (handleTaskLinkClick now uid aid st).1 = .err 403 msgTaskLinkLimit ∧
      ∃ u', ((handleTaskLinkClick now uid aid st).2).users uid = some u' ∧
        u'.task_link_clicks_today = u.task_link_clicks_today ∧ u'.balance = u.balance) := by
  refine ⟨handleWatchAd_capsOk now uid aid st u hu hcaps,
    handleSpinResult_capsOk now randomIndex uid aid st u hu hcaps,
    handleTaskLinkClick_capsOk now uid aid st u hu hcaps, ?_, ?_, ?_⟩
  · intro ta2 hv hcap hdue hb hr
    exact handleWatchAd_capReject now uid aid st u ta2 hu hv hcap hdue hb hr
  · intro ta2 hv hcap hdue hb hr
    exact handleSpinResult_capReject now randomIndex uid aid st u ta2 hu hv hcap hdue hb hr
  · intro ta2 hv hcap hdue hb hr
    exact handleTaskLinkClick_capReject now uid aid st u ta2 hu hv hcap hdue hb hr

-- ------------------------------------------------------------------
-- Success / error outcome lemmas for the reward handlers
-- ------------------------------------------------------------------

theorem bool_eq_false {b : Bool} (h : ¬(b = true)) : b = false := by
  cases b
  · rfl
  · exact absurd rfl h

theorem handleWatchAd_ok_outcome (now uid : Nat) (aid : Option String) (st : Store)
    (u : UserRec) (nb : Option ℚ) (nc : Option Nat) (hu : st.users uid = some u)
    (hok : (handleWatchAd now uid aid st).1 = .ok nb nc) :
    nb = some (u.balance + REWARD_PER_AD) ∧
    ∃ u', ((handleWatchAd now uid aid st).2).users uid = some u' ∧
      u'.last_activity = some now ∧
      (u.ref_by ≠ some uid → u'.balance = u.balance + REWARD_PER_AD) := by
  rcases hv : validateAndUseActionId now uid aid "watchAd" st.temp_actions with ⟨tc, ta2⟩
  by_cases htc : tc = TokenCheck.okConsumed
  · subst htc
    rw [handleWatchAd_token_ok now uid aid st ta2 hv] at hok ⊢
    have hv1 : (resetDailyLimitsIfExpired now uid
        { st with temp_actions := ta2 }).users uid = some (resetUserRec now u) :=
      reset_users_self now uid _ u hu
    obtain ⟨c1, c2, c3, c4⟩ := watchAdChecked_cases now uid _ _ hv1
    by_cases hb : (resetUserRec now u).is_banned = true
    · rw [c1 hb] at hok
      exact absurd hok (by simp)
    · by_cases hrate : rateOk now (resetUserRec now u) = true
      · by_cases hcap : DAILY_MAX_ADS ≤ (resetUserRec now u).ads_watched_today
        · rw [c3 (bool_eq_false hb) hrate hcap] at hok
          exact absurd hok (by simp)
        · rw [c4 (bool_eq_false hb) hrate (not_le.mp hcap)] at hok ⊢
          have hnb : Resp.ok (some ((resetUserRec now u).balance + REWARD_PER_AD))
              (some ((resetUserRec now u).ads_watched_today + 1)) = Resp.ok nb nc := hok
          obtain ⟨w, hw, hw1, hw2, hw3, hw4, _, hw5⟩ :=
            watchAdPersist_self now uid (resetUserRec now u) _ hv1
          refine ⟨?_, w, hw, hw4, ?_⟩
          · cases hnb
            rw [resetUserRec_balance]
          · intro href
            have href' : (resetUserRec now u).ref_by ≠ some uid := by
              rw [resetUserRec_ref_by]; exact href
            rw [hw5 href', resetUserRec_balance]
      · rw [c2 (bool_eq_false hb) (bool_eq_false hrate)] at hok
        exact absurd hok (by simp)
  · rw [handleWatchAd_token_err now uid aid st tc ta2 hv htc] at hok
    exact absurd hok (by simp)

theorem handleSpinResult_ok_outcome (now randomIndex uid : Nat) (aid : Option String)
    (st : Store) (u : UserRec) (nb : Option ℚ) (nc : Option Nat)
    (hu : st.users uid = some u)
    (hok : (handleSpinResult now randomIndex uid aid st).1 = .ok nb nc) :
    nb = some (u.balance + SPIN_SECTORS.getD randomIndex 0) ∧
    ∃ u', ((handleSpinResult now randomIndex uid aid st).2).users uid = some u' ∧
      u'.last_activity = some now ∧
      u'.balance = u.balance + SPIN_SECTORS.getD randomIndex 0 := by
  rcases hv : validateAndUseActionId now uid aid "spinResult" st.temp_actions with ⟨tc, ta2⟩
  by_cases htc : tc = TokenCheck.okConsumed
  · subst htc
    rw [handleSpinResult_token_ok now randomIndex uid aid st ta2 hv] at hok ⊢
    have hv1 : (resetDailyLimitsIfExpired now uid
        { st with temp_actions := ta2 }).users uid = some (resetUserRec now u) :=
      reset_users_self now uid _ u hu
    obtain ⟨c1, c2, c3, c4⟩ := spinChecked_cases now randomIndex uid _ _ hv1
    by_cases hb : (resetUserRec now u).is_banned = true
    · rw [c1 hb] at hok
      exact absurd hok (by simp)
    · by_cases hrate : rateOk now (resetUserRec now u) = true
      · by_cases hcap : DAILY_MAX_SPINS ≤ (resetUserRec now u).spins_today
        · rw [c3 (bool_eq_false hb) hrate hcap] at hok
          exact absurd hok (by simp)
        · rw [c4 (bool_eq_false hb) hrate (not_le.mp hcap)] at hok ⊢
          have hnb : Resp.ok (some ((resetUserRec now u).balance +
              SPIN_SECTORS.getD randomIndex 0))
              (some ((resetUserRec now u).spins_today + 1)) = Resp.ok nb nc := hok
          obtain ⟨w, hw, hw1, hw2, hw3, hw4, _, hw5⟩ :=
            spinPersist_self now uid _ (resetUserRec now u) _ hv1
          refine ⟨?_, w, hw, hw4, ?_⟩
          · cases hnb
            rw [resetUserRec_balance]
          · rw [hw5, resetUserRec_balance]
      · rw [c2 (bool_eq_false hb) (bool_eq_false hrate)] at hok
        exact absurd hok (by simp)
  · rw [handleSpinResult_token_err now randomIndex uid aid st tc ta2 hv htc] at hok
    exact absurd hok (by simp)

theorem handleTaskLinkClick_ok_outcome (now uid : Nat) (aid : Option String)
    (st : Store) (u : UserRec) (nb : Option ℚ) (nc : Option Nat)
    (hu : st.users uid = some u)
    (hok : (handleTaskLinkClick now uid aid st).1 = .ok nb nc) :
    nb = some (u.balance + TASK_LINK_REWARD) ∧
    ∃ u', ((handleTaskLinkClick now uid aid st).2).users uid = some u' ∧
      u'.last_activity = some now ∧
      (u.ref_by ≠ some uid → u'.balance = u.balance + TASK_LINK_REWARD) := by
  rcases hv : validateAndUseActionId now uid aid "taskLink" st.temp_actions with ⟨tc, ta2⟩
  by_cases htc : tc = TokenCheck.okConsumed
  · subst htc
    rw [handleTaskLinkClick_token_ok now uid aid st ta2 hv] at hok ⊢
    have hv1 : (resetDailyLimitsIfExpired now uid
        { st with temp_actions := ta2 }).users uid = some (resetUserRec now u) :=
      reset_users_self now uid _ u hu
    obtain ⟨c1, c2, c3, c4⟩ := taskLinkChecked_cases now uid _ _ hv1
    by_cases hb : (resetUserRec now u).is_banned = true
    · rw [c1 hb] at hok
      exact absurd hok (by simp)
    · by_cases hrate : rateOk now (resetUserRec now u) = true
      · by_cases hcap : TASK_LINK_DAILY_MAX ≤ (resetUserRec now u).task_link_clicks_today
        · rw [c3 (bool_eq_false hb) hrate hcap] at hok
          exact absurd hok (by simp)
        · rw [c4 (bool_eq_false hb) hrate (not_le.mp hcap)] at hok ⊢
          have hnb : Resp.ok (some ((resetUserRec now u).balance + TASK_LINK_REWARD))
              (some ((resetUserRec now u).task_link_clicks_today + 1)) = Resp.ok nb nc := hok
          obtain ⟨w, hw, hw1, hw2, hw3, hw4, _, hw5⟩ :=
            taskLinkPersist_self now uid (resetUserRec now u) _ hv1
          refine ⟨?_, w, hw, hw4, ?_⟩
          · cases hnb
            rw [resetUserRec_balance]
          · intro href
            have href' : (resetUserRec now u).ref_by ≠ some uid := by
              rw [resetUserRec_ref_by]; exact href
            rw [hw5 href', resetUserRec_balance]
      · rw [c2 (bool_eq_false hb) (bool_eq_false hrate)] at hok
        exact absurd hok (by simp)
  · rw [handleTaskLinkClick_token_err now uid aid st tc ta2 hv htc] at hok
    exact absurd hok (by simp)

theorem handleWatchAd_err_balance (now uid : Nat) (aid : Option String) (st : Store)
    (u : UserRec) (c : Nat) (m : String) (hu : st.users uid = some u)
    (herr : (handleWatchAd now uid aid st).1 = .err c m) :
    ∃ u', ((handleWatchAd now uid aid st).2).users uid = some u' ∧
      u'.balance = u.balance := by
  rcases hv : validateAndUseActionId now uid aid "watchAd" st.temp_actions with ⟨tc, ta2⟩
  by_cases htc : tc = TokenCheck.okConsumed
  · subst htc
    rw [handleWatchAd_token_ok now uid aid st ta2 hv] at herr ⊢
    have hv1 : (resetDailyLimitsIfExpired now uid
        { st with temp_actions := ta2 }).users uid = some (resetUserRec now u) :=
      reset_users_self now uid _ u hu
    obtain ⟨c1, c2, c3, c4⟩ := watchAdChecked_cases now uid _ _ hv1
    by_cases hb : (resetUserRec now u).is_banned = true
    · rw [c1 hb]
      exact ⟨resetUserRec now u, hv1, resetUserRec_balance now u⟩
    · by_cases hrate : rateOk now (resetUserRec now u) = true
      · by_cases hcap : DAILY_MAX_ADS ≤ (resetUserRec now u).ads_watched_today
        · rw [c3 (bool_eq_false hb) hrate hcap]
          exact ⟨resetUserRec now u, hv1, resetUserRec_balance now u⟩
        · rw [c4 (bool_eq_false hb) hrate (not_le.mp hcap)] at herr
          exact absurd herr (by simp)
      · rw [c2 (bool_eq_false hb) (bool_eq_false hrate)]
        exact ⟨resetUserRec now u, hv1, resetUserRec_balance now u⟩
  · rw [handleWatchAd_token_err now uid aid st tc ta2 hv htc]
    exact ⟨u, hu, rfl⟩

theorem handleSpinResult_err_balance (now randomIndex uid : Nat) (aid : Option String)
    (st : Store) (u : UserRec) (c : Nat) (m : String) (hu : st.users uid = some u)
    (herr : (handleSpinResult now randomIndex uid aid st).1 = .err c m) :
    ∃ u', ((handleSpinResult now randomIndex uid aid st).2).users uid = some u' ∧
      u'.balance = u.balance := by
  rcases hv : validateAndUseActionId now uid aid "spinResult" st.temp_actions with ⟨tc, ta2⟩
  by_cases htc : tc = TokenCheck.okConsumed
  · subst htc
    rw [handleSpinResult_token_ok now randomIndex uid aid st ta2 hv] at herr ⊢
    have hv1 : (resetDailyLimitsIfExpired now uid
        { st with temp_actions := ta2 }).users uid = some (resetUserRec now u) :=
      reset_users_self now uid _ u hu
    obtain ⟨c1, c2, c3, c4⟩ := spinChecked_cases now randomIndex uid _ _ hv1
    by_cases hb : (resetUserRec now u).is_banned = true
    · rw [c1 hb]
      exact ⟨resetUserRec now u, hv1, resetUserRec_balance now u⟩
    · by_cases hrate : rateOk now (resetUserRec now u) = true
      · by_cases hcap : DAILY_MAX_SPINS ≤ (resetUserRec now u).spins_today
        · rw [c3 (bool_eq_false hb) hrate hcap]
          exact ⟨resetUserRec now u, hv1, resetUserRec_balance now u⟩
        · rw [c4 (bool_eq_false hb) hrate (not_le.mp hcap)] at herr
          exact absurd herr (by simp)
      · rw [c2 (bool_eq_false hb) (bool_eq_false hrate)]
        exact ⟨resetUserRec now u, hv1, resetUserRec_balance now u⟩
  · rw [handleSpinResult_token_err now randomIndex uid aid st tc ta2 hv htc]
    exact ⟨u, hu, rfl⟩

theorem handleTaskLinkClick_err_balance (now uid : Nat) (aid : Option String)
    (st : Store) (u : UserRec) (c : Nat) (m : String) (hu : st.users uid = some u)
    (herr : (handleTaskLinkClick now uid aid st).1 = .err c m) :
    ∃ u', ((handleTaskLinkClick now uid aid st).2).users uid = some u' ∧
      u'.balance = u.balance := by
  rcases hv : validateAndUseActionId now uid aid "taskLink" st.temp_actions with ⟨tc, ta2⟩
  by_cases htc : tc = TokenCheck.okConsumed
  · subst htc
    rw [handleTaskLinkClick_token_ok now uid aid st ta2 hv] at herr ⊢
    have hv1 : (resetDailyLimitsIfExpired now uid
        { st with temp_actions := ta2 }).users uid = some (resetUserRec now u) :=
      reset_users_self now uid _ u hu
    obtain ⟨c1, c2, c3, c4⟩ := taskLinkChecked_cases now uid _ _ hv1
    by_cases hb : (resetUserRec now u).is_banned = true
    · rw [c1 hb]
      exact ⟨resetUserRec now u, hv1, resetUserRec_balance now u⟩
    · by_cases hrate : rateOk now (resetUserRec now u) = true
      · by_cases hcap : TASK_LINK_DAILY_MAX ≤ (resetUserRec now u).task_link_clicks_today
        · rw [c3 (bool_eq_false hb) hrate hcap]
          exact ⟨resetUserRec now u, hv1, resetUserRec_balance now u⟩
        · rw [c4 (bool_eq_false hb) hrate (not_le.mp hcap)] at herr
          exact absurd herr (by simp)
      · rw [c2 (bool_eq_false hb) (bool_eq_false hrate)]
        exact ⟨resetUserRec now u, hv1, resetUserRec_balance now u⟩
  · rw [handleTaskLinkClick_token_err now uid aid st tc ta2 hv htc]
    exact ⟨u, hu, rfl⟩

theorem handleCommission_credit (rid : Nat) (refereeId : Option Nat) (r : ℚ)
    (st : Store) (refUser : UserRec) (h : st.users rid = some refUser)
    (hban : refUser.is_banned = false) (hr0 : r ≠ 0)
    (hc : ¬(r * REFERRAL_COMMISSION_RATE < 1 / 1000000)) :
    (handleCommission (some rid) refereeId (some r) st).1 =
      .ok (some (refUser.balance + r * REFERRAL_COMMISSION_RATE)) none ∧
    ((handleCommission (some rid) refereeId (some r) st).2).users rid =
      some { refUser with balance := refUser.balance + r * REFERRAL_COMMISSION_RATE } := by
  have hcred := processCommission_credit refereeId r st rid refUser h hban hc
  have hsr : parsedSourceReward (some r) = r := by
    simp only [parsedSourceReward]
    rw [if_neg hr0]
  unfold handleCommission
  rw [hsr]
  rcases hpp : processCommission (some rid) refereeId r st with ⟨res, st2⟩
  rw [hpp] at hcred
  obtain ⟨h1, h2⟩ := hcred
  have h1' : res = some (refUser.balance + r * REFERRAL_COMMISSION_RATE) := h1
  subst h1'
  exact ⟨rfl, h2⟩

theorem handleCommission_temp (a b : Option Nat) (sr : Option ℚ) (st : Store) :
    (handleCommission a b sr st).2.temp_actions = st.temp_actions := by
  unfold handleCommission
  rcases hpp : processCommission a b (parsedSourceReward sr) st with ⟨res, st2⟩
  have hpt := processCommission_temp a b (parsedSourceReward sr) st
  rw [hpp] at hpt
  cases res with
  | none => exact hpt
  | some nb => exact hpt

theorem handleCommission_users_ne (a b : Option Nat) (sr : Option ℚ) (st : Store)
    (n : Nat) (hne : a ≠ some n) :
    (handleCommission a b sr st).2.users n = st.users n := by
  unfold handleCommission
  rcases hpp : processCommission a b (parsedSourceReward sr) st with ⟨res, st2⟩
  have hpt := @processCommission_users_ne a b (parsedSourceReward sr) n st hne
  rw [hpp] at hpt
  cases res with
  | none => exact hpt
  | some nb => exact hpt

-- ------------------------------------------------------------------
-- Dispatcher lemmas (the gate of module.exports)
-- ------------------------------------------------------------------

theorem routeRequest_initData_gate (now randomIndex : Nat) (botToken : Option String)
    (memb : TgOutcome) (other : String → Store → Resp × Store) (req : Request)
    (st : Store) (t : String) (ht : req.rtype = some t) (hne : t ≠ "commission")
    (hbad : req.initData ≠ some true) :
    routeRequest now randomIndex botToken memb other req st =
      (.err 401 "Invalid or expired initData. Security check failed.", st) := by
  unfold routeRequest
  simp only [ht]
  rw [if_pos ⟨hne, hbad⟩]

theorem routeRequest_commission_dispatch (now randomIndex : Nat)
    (botToken : Option String) (memb : TgOutcome)
    (other : String → Store → Resp × Store) (req : Request) (st : Store)
    (ht : req.rtype = some "commission") :
    routeRequest now randomIndex botToken memb other req st =
      handleCommission req.referrer_id req.referee_id req.source_reward st := by
  unfold routeRequest
  simp only [ht]
  rw [if_neg (by intro hx; exact hx.1 rfl)]
  rw [if_neg (by intro hx; exact hx.2 rfl)]

-- ------------------------------------------------------------------
-- Withdraw outcome lemmas
-- ------------------------------------------------------------------

theorem withdrawCore_ok_outcome (now uid : Nat) (amount : Option ℚ)
    (bin fe : Option String) (st0 : Store) (u : UserRec) (nb : Option ℚ)
    (nc : Option Nat) (hu : st0.users uid = some u)
    (hok : (withdrawCore now uid amount bin fe st0).1 = .ok nb nc) :
    ∃ amt, amount = some amt ∧ MIN_WITHDRAW ≤ amt ∧
      nb = some (u.balance - amt) ∧
      ∃ u', ((withdrawCore now uid amount bin fe st0).2).users uid = some u' ∧
        u'.balance = u.balance - amt := by
  cases amount with
  | none =>
    simp only [withdrawCore] at hok
    exact absurd hok (by simp)
  | some amt =>
    simp only [withdrawCore] at hok ⊢
    by_cases hmin : amt < MIN_WITHDRAW
    · rw [if_pos hmin] at hok
      exact absurd hok (by simp)
    · rw [if_neg hmin] at hok ⊢
      simp only [hu] at hok ⊢
      by_cases hb : u.is_banned = true
      · rw [if_pos hb] at hok
        exact absurd hok (by simp)
      · rw [if_neg hb] at hok ⊢
        by_cases hbal : u.balance < amt
        · rw [if_pos hbal] at hok
          exact absurd hok (by simp)
        · rw [if_neg hbal] at hok ⊢
          cases hfe : trimmedPresent fe with
          | some email =>
            simp only [hfe] at hok ⊢
            by_cases hem : emailRegexTest email = false
            · rw [if_pos hem] at hok
              exact absurd hok (by simp)
            · rw [if_neg hem] at hok ⊢
              have hnb : Resp.ok (some (u.balance - amt)) none = Resp.ok nb nc := hok
              cases hnb
              refine ⟨amt, rfl, not_lt.mp hmin, rfl, ?_⟩
              exact ⟨_, users_updateUser_some st0 uid u _ hu, rfl⟩
          | none =>
            simp only [hfe] at hok ⊢
            cases hbin : trimmedPresent bin with
            | some bid =>
              simp only [hbin] at hok ⊢
              have hnb : Resp.ok (some (u.balance - amt)) none = Resp.ok nb nc := hok
              cases hnb
              refine ⟨amt, rfl, not_lt.mp hmin, rfl, ?_⟩
              exact ⟨_, users_updateUser_some st0 uid u _ hu, rfl⟩
            | none =>
              simp only [hbin] at hok
              exact absurd hok (by simp)

theorem withdrawCore_err_balance (now uid : Nat) (amount : Option ℚ)
    (bin fe : Option String) (st0 : Store) (u : UserRec) (c : Nat) (m : String)
    (hu : st0.users uid = some u)
    (herr : (withdrawCore now uid amount bin fe st0).1 = .err c m) :
    ∃ u', ((withdrawCore now uid amount bin fe st0).2).users uid = some u' ∧
      u'.balance = u.balance := by
  cases amount with
  | none =>
    simp only [withdrawCore]
    exact ⟨u, hu, rfl⟩
  | some amt =>
    simp only [withdrawCore] at herr ⊢
    by_cases hmin : amt < MIN_WITHDRAW
    · rw [if_pos hmin]
      exact ⟨u, hu, rfl⟩
    · rw [if_neg hmin] at herr ⊢
      simp only [hu] at herr ⊢
      by_cases hb : u.is_banned = true
      · rw [if_pos hb]
        exact ⟨u, hu, rfl⟩
      · rw [if_neg hb] at herr ⊢
        by_cases hbal : u.balance < amt
        · rw [if_pos hbal]
          exact ⟨u, hu, rfl⟩
        · rw [if_neg hbal] at herr ⊢
          cases hfe : trimmedPresent fe with
          | some email =>
            simp only [hfe] at herr ⊢
            by_cases hem : emailRegexTest email = false
            · rw [if_pos hem]
              exact ⟨u, hu, rfl⟩
            · rw [if_neg hem] at herr
              exact absurd herr (by simp)
          | none =>
            simp only [hfe] at herr ⊢
            cases hbin : trimmedPresent bin with
            | some bid =>
              simp only [hbin] at herr
              exact absurd herr (by simp)
            | none =>
              simp only [hbin]
              exact ⟨u, hu, rfl⟩

theorem handleWithdraw_token_ok (now uid : Nat) (aid : Option String)
    (amount : Option ℚ) (bin fe : Option String) (st : Store) (ta2 : List TempAction)
    (hv : validateAndUseActionId now uid aid "withdraw" st.temp_actions =
      (TokenCheck.okConsumed, ta2)) :
    handleWithdraw now uid aid amount bin fe st =
      withdrawCore now uid amount bin fe { st with temp_actions := ta2 } := by
  unfold handleWithdraw
  rw [hv]

theorem handleWithdraw_token_err (now uid : Nat) (aid : Option String)
    (amount : Option ℚ) (bin fe : Option String) (st : Store) (tc : TokenCheck)
    (ta2 : List TempAction)
    (hv : validateAndUseActionId now uid aid "withdraw" st.temp_actions = (tc, ta2))
    (htc : tc ≠ TokenCheck.okConsumed) :
    handleWithdraw now uid aid amount bin fe st =
      (.err (tokenHttpStatus tc) (tokenMsg tc), { st with temp_actions := ta2 }) := by
  unfold handleWithdraw
  rw [hv]
  cases tc with
  | missing => rfl
  | notFound => rfl
  | expired => rfl
  | okConsumed => exact absurd rfl htc

theorem handleWithdraw_ok_outcome (now uid : Nat) (aid : Option String)
    (amount : Option ℚ) (bin fe : Option String) (st : Store) (u : UserRec)
    (nb : Option ℚ) (nc : Option Nat) (hu : st.users uid = some u)
    (hok : (handleWithdraw now uid aid amount bin fe st).1 = .ok nb nc) :
    ∃ amt, amount = some amt ∧ MIN_WITHDRAW ≤ amt ∧
      nb = some (u.balance - amt) ∧
      ∃ u', ((handleWithdraw now uid aid amount bin fe st).2).users uid = some u' ∧
        u'.balance = u.balance - amt ∧ u'.balance < u.balance := by
  rcases hv : validateAndUseActionId now uid aid "withdraw" st.temp_actions with ⟨tc, ta2⟩
  by_cases htc : tc = TokenCheck.okConsumed
  · subst htc
    rw [handleWithdraw_token_ok now uid aid amount bin fe st ta2 hv] at hok ⊢
    obtain ⟨amt, ha, hmin, hnb, u', hu', hbal⟩ :=
      withdrawCore_ok_outcome now uid amount bin fe { st with temp_actions := ta2 }
        u nb nc hu hok
    refine ⟨amt, ha, hmin, hnb, u', hu', hbal, ?_⟩
    rw [hbal]
    have hpos : (0 : ℚ) < amt := lt_of_lt_of_le (by norm_num [MIN_WITHDRAW]) hmin
    linarith
  · rw [handleWithdraw_token_err now uid aid amount bin fe st tc ta2 hv htc] at hok
    exact absurd hok (by simp)

theorem handleWithdraw_err_balance (now uid : Nat) (aid : Option String)
    (amount : Option ℚ) (bin fe : Option String) (st : Store) (u : UserRec)
    (c : Nat) (m : String) (hu : st.users uid = some u)
    (herr : (handleWithdraw now uid aid amount bin fe st).1 = .err c m) :
    ∃ u', ((handleWithdraw now uid aid amount bin fe st).2).users uid = some u' ∧
      u'.balance = u.balance := by
  rcases hv : validateAndUseActionId now uid aid "withdraw" st.temp_actions with ⟨tc, ta2⟩
  by_cases htc : tc = TokenCheck.okConsumed
  · subst htc
    rw [handleWithdraw_token_ok now uid aid amount bin fe st ta2 hv] at herr ⊢
    exact withdrawCore_err_balance now uid amount bin fe { st with temp_actions := ta2 }
      u c m hu herr
  · rw [handleWithdraw_token_err now uid aid amount bin fe st tc ta2 hv htc]
    exact ⟨u, hu, rfl⟩

-- ------------------------------------------------------------------
-- Token-store preservation lemmas
-- ------------------------------------------------------------------

theorem watchAdPersist_temp (now uid : Nat) (v : UserRec) (st : Store) :
    (watchAdPersist now uid v st).temp_actions = st.temp_actions := by
  unfold watchAdPersist
  cases href : v.ref_by with
  | none => rfl
  | some rid => exact processCommission_temp (some rid) (some uid) REWARD_PER_AD _

theorem spinPersist_temp (now uid : Nat) (prize : ℚ) (v : UserRec) (st : Store) :
    (spinPersist now uid prize v st).temp_actions = st.temp_actions := rfl

theorem taskLinkPersist_temp (now uid : Nat) (v : UserRec) (st : Store) :
    (taskLinkPersist now uid v st).temp_actions = st.temp_actions := by
  unfold taskLinkPersist
  cases href : v.ref_by with
  | none => rfl
  | some rid => exact processCommission_temp (some rid) (some uid) TASK_LINK_REWARD _

theorem watchAdChecked_temp (now uid : Nat) (st : Store) :
    ((watchAdChecked now uid st).2).temp_actions = st.temp_actions := by
  unfold watchAdChecked
  cases hu : st.users uid with
  | none => rfl
  | some user =>
    simp only [hu]
    by_cases hb : user.is_banned = true
    · rw [if_pos hb]
    · rw [if_neg hb]
      by_cases hr : checkRateLimit now uid st = false
      · rw [if_pos hr]
      · rw [if_neg hr]
        by_cases hcap : DAILY_MAX_ADS ≤ user.ads_watched_today
        · rw [if_pos hcap]
        · rw [if_neg hcap]
          exact watchAdPersist_temp now uid user st

theorem spinChecked_temp (now randomIndex uid : Nat) (st : Store) :
    ((spinChecked now randomIndex uid st).2).temp_actions = st.temp_actions := by
  unfold spinChecked
  cases hu : st.users uid with
  | none => rfl
  | some user =>
    simp only [hu]
    by_cases hb : user.is_banned = true
    · rw [if_pos hb]
    · rw [if_neg hb]
      by_cases hr : checkRateLimit now uid st = false
      · rw [if_pos hr]
      · rw [if_neg hr]
        by_cases hcap : DAILY_MAX_SPINS ≤ user.spins_today
        · rw [if_pos hcap]
        · rw [if_neg hcap]
          rfl

theorem taskLinkChecked_temp (now uid : Nat) (st : Store) :
    ((taskLinkChecked now uid st).2).temp_actions = st.temp_actions := by
  unfold taskLinkChecked
  cases hu : st.users uid with
  | none => rfl
  | some user =>
    simp only [hu]
    by_cases hb : user.is_banned = true
    · rw [if_pos hb]
    · rw [if_neg hb]
      by_cases hr : checkRateLimit now uid st = false
      · rw [if_pos hr]
      · rw [if_neg hr]
        by_cases hcap : TASK_LINK_DAILY_MAX ≤ user.task_link_clicks_today
        · rw [if_pos hcap]
        · rw [if_neg hcap]
          exact taskLinkPersist_temp now uid user st

-- ------------------------------------------------------------------
-- C3: immediate versus deferred token consumption
-- ------------------------------------------------------------------

/-- Witness user for C3: at the ads cap so the request fails after
validation. -/
def c3User : UserRec :=
  ⟨100, 200, 0, 0, none, none, none, none, false, false, none⟩

/-- Witness store for C3: user 55 plus one fresh `watchAd` token. -/
def c3Store : Store :=
  { emptyStore with
    users := fun n => if n = 55 then some c3User else none,
    temp_actions := [⟨1, 55, "tok3", "watchAd", 99000⟩] }

/-- Counterexample to C3 as stated: a watchAd request whose token
validates but which then fails on the daily cap does NOT leave the token
in the store — the token row is already gone and a retry with the same
token is answered 409 (not found), so the client cannot retry. -/
theorem c3_counterexample :
    (handleWatchAd 100000 55 (some "tok3") c3Store).1 = Resp.err 403 msgAdLimit ∧
    ((handleWatchAd 100000 55 (some "tok3") c3Store).2).temp_actions = [] ∧
    (validateAndUseActionId 100001 55 (some "tok3") "watchAd"
        ((handleWatchAd 100000 55 (some "tok3") c3Store).2).temp_actions).1 =
      TokenCheck.notFound := by
  refine ⟨?_, ?_, ?_⟩ <;> decide

/-- C3 amended. The code implements immediate consumption (policy a):
`validateAndUseActionId` deletes the token row during validation, before
the protected operation, and no later step of the handler restores it —
whatever the outcome (banned, rate-limited, cap reached, user missing,
or success), the resulting token store is exactly the post-consumption
store, and a second validation attempt with the same token is rejected
as not-found, so a failed request cannot be retried with its token. -/
theorem c3_amended_immediate_consumption (now now' uid : Nat) (aid : String)
    (st : Store) (ta2 : List TempAction) (huniq : actionIdUnique st.temp_actions)
    (hv : validateAndUseActionId now uid (some aid) "watchAd" st.temp_actions =
      (TokenCheck.okConsumed, ta2)) :
    ((handleWatchAd now uid (some aid) st).2).temp_actions = ta2 ∧
    (validateAndUseActionId now' uid (some aid) "watchAd" ta2).1 =
      TokenCheck.notFound := by
  constructor
  · rw [handleWatchAd_token_ok now uid (some aid) st ta2 hv, watchAdChecked_temp,
      reset_temp]
  · obtain ⟨rec, hmem, hm, hta⟩ := consumed_store hv (Or.inl rfl)
    subst hta
    rw [second_validate_notFound huniq hmem hm]

/-- Witness for the amended C3: immediate consumption on the concrete
at-cap store. -/
theorem c3_amended_immediate_consumption_witness :
    actionIdUnique c3Store.temp_actions ∧
    (((handleWatchAd 100000 55 (some "tok3") c3Store).2).temp_actions = [] ∧
     (validateAndUseActionId 100001 55 (some "tok3") "watchAd" []).1 =
       TokenCheck.notFound) :=
  ⟨by unfold actionIdUnique; decide,
   c3_amended_immediate_consumption 100000 100001 55 "tok3" c3Store []
     (by unfold actionIdUnique; decide) (by decide)⟩

-- ------------------------------------------------------------------
-- C6: the rate limit and its single shared timestamp
-- ------------------------------------------------------------------

theorem rateOk_recent (now t : Nat) (u : UserRec) (hlast : u.last_activity = some t)
    (hlt : (now : ℤ) - (t : ℤ) < MIN_TIME_BETWEEN_ACTIONS_MS) :
    rateOk now u = false := by
  simp only [rateOk, hlast]
  simp [hlt]

theorem handleWatchAd_rate_reject (now uid : Nat) (aid : Option String) (st : Store)
    (u : UserRec) (ta2 : List TempAction) (hu : st.users uid = some u)
    (hv : validateAndUseActionId now uid aid "watchAd" st.temp_actions =
      (TokenCheck.okConsumed, ta2))
    (hb : u.is_banned = false) (hr : rateOk now u = false) :
    (handleWatchAd now uid aid st).1 = .err 429 msgRate := by
  rw [handleWatchAd_token_ok now uid aid st ta2 hv]
  have hv1 : (resetDailyLimitsIfExpired now uid
      { st with temp_actions := ta2 }).users uid = some (resetUserRec now u) :=
    reset_users_self now uid _ u hu
  obtain ⟨c1, c2, c3, c4⟩ := watchAdChecked_cases now uid _ _ hv1
  rw [c2 (by rw [resetUserRec_is_banned]; exact hb) (by rw [rateOk_reset]; exact hr)]

theorem handleSpinResult_rate_reject (now randomIndex uid : Nat) (aid : Option String)
    (st : Store) (u : UserRec) (ta2 : List TempAction) (hu : st.users uid = some u)
    (hv : validateAndUseActionId now uid aid "spinResult" st.temp_actions =
      (TokenCheck.okConsumed, ta2))
    (hb : u.is_banned = false) (hr : rateOk now u = false) :
    (handleSpinResult now randomIndex uid aid st).1 = .err 429 msgRate := by
  rw [handleSpinResult_token_ok now randomIndex uid aid st ta2 hv]
  have hv1 : (resetDailyLimitsIfExpired now uid
      { st with temp_actions := ta2 }).users uid = some (resetUserRec now u) :=
    reset_users_self now uid _ u hu
  obtain ⟨c1, c2, c3, c4⟩ := spinChecked_cases now randomIndex uid _ _ hv1
  rw [c2 (by rw [resetUserRec_is_banned]; exact hb) (by rw [rateOk_reset]; exact hr)]

/-- Witness user for C6: fresh user, never active. -/
def c6User : UserRec :=
  ⟨0, 0, 0, 0, none, none, none, none, false, false, none⟩

/-- Witness store for C6: user 7 with a spin token and an ad token. -/
def c6Store : Store :=
  { emptyStore with
    users := fun n => if n = 7 then some c6User else none,
    temp_actions := [⟨1, 7, "s1", "spinResult", 99000⟩, ⟨2, 7, "a1", "watchAd", 99000⟩] }

/-- Counterexample to C6 as stated: a successful spin at t=100000 stamps
the single shared `last_activity` field, and an ad-watch one second
later — with its own fresh, valid token — is rejected 429 by the rate
limit: the spin DOES start the ad-watch cooldown, because both families
share the one `last_activity` timestamp. -/
theorem c6_counterexample :
    (∃ nb nc, (handleSpinResult 100000 0 7 (some "s1") c6Store).1 = Resp.ok nb nc) ∧
    (handleWatchAd 101000 7 (some "a1")
        ((handleSpinResult 100000 0 7 (some "s1") c6Store).2)).1 =
      Resp.err 429 msgRate := by
  have hvspin : validateAndUseActionId 100000 7 (some "s1") "spinResult"
      c6Store.temp_actions =
      (TokenCheck.okConsumed, [⟨2, 7, "a1", "watchAd", 99000⟩]) := by decide
  have hcomp := handleSpinResult_token_ok 100000 0 7 (some "s1") c6Store _ hvspin
  have hv1 : (resetDailyLimitsIfExpired 100000 7
      { c6Store with temp_actions := [⟨2, 7, "a1", "watchAd", 99000⟩] }).users 7 =
      some (resetUserRec 100000 c6User) :=
    reset_users_self 100000 7 _ c6User rfl
  obtain ⟨c1, c2, c3, c4⟩ := spinChecked_cases 100000 0 7 _ _ hv1
  have hb : (resetUserRec 100000 c6User).is_banned = false := by
    rw [resetUserRec_is_banned]
    rfl
  have hr : rateOk 100000 (resetUserRec 100000 c6User) = true := by
    rw [rateOk_reset]
    decide
  have hcap : (resetUserRec 100000 c6User).spins_today < DAILY_MAX_SPINS := by
    rw [resetUserRec_spins]
    decide
  have hbranch := c4 hb hr hcap
  obtain ⟨w, hw, hw1, hw2, hw3, hwl, hwb, hwbal⟩ :=
    spinPersist_self 100000 7 (SPIN_SECTORS.getD 0 0) (resetUserRec 100000 c6User) _ hv1
  constructor
  · rw [hcomp, hbranch]
    exact ⟨_, _, rfl⟩
  · have hst1 : (handleSpinResult 100000 0 7 (some "s1") c6Store).2 =
        spinPersist 100000 7 (SPIN_SECTORS.getD 0 0) (resetUserRec 100000 c6User)
          (resetDailyLimitsIfExpired 100000 7
            { c6Store with temp_actions := [⟨2, 7, "a1", "watchAd", 99000⟩] }) := by
      rw [hcomp, hbranch]
    have hw' : ((handleSpinResult 100000 0 7 (some "s1") c6Store).2).users 7 = some w := by
      rw [hst1]
      exact hw
    have htemp : ((handleSpinResult 100000 0 7 (some "s1") c6Store).2).temp_actions =
        [⟨2, 7, "a1", "watchAd", 99000⟩] := by
      rw [hst1, spinPersist_temp, reset_temp]
    have hva : validateAndUseActionId 101000 7 (some "a1") "watchAd"
        ((handleSpinResult 100000 0 7 (some "s1") c6Store).2).temp_actions =
        (TokenCheck.okConsumed, []) := by
      rw [htemp]
      decide
    have hwb' : w.is_banned = false := by
      rw [hwb, resetUserRec_is_banned]
      rfl
    have hwr : rateOk 101000 w = false :=
      rateOk_recent 101000 100000 w hwl (by decide)
    exact handleWatchAd_rate_reject 101000 7 (some "a1") _ w [] hw' hva hwb' hwr

/-- C6 amended. The 3-second rate limit is evaluated against a single
shared `last_activity` timestamp common to all rate-limited action
families: every successful spin or ad-watch stamps that one field, the
rate verdict is a function of that field alone, and any ad-watch or spin
whose token validates within 3 seconds of `last_activity` is rejected
429 — a successful spin therefore DOES start the cooldown for an
immediately following ad-watch, and vice versa. -/
theorem c6_amended_shared_cooldown (now now' randomIndex uid : Nat)
    (aid : Option String) (st : Store) (u : UserRec) (t : Nat)
    (hu : st.users uid = some u) :
    (∀ nb nc, (handleSpinResult now randomIndex uid aid st).1 = .ok nb nc →
      ∃ u', ((handleSpinResult now randomIndex uid aid st).2).users uid = some u' ∧
        u'.last_activity = some now) ∧
    (∀ nb nc, (handleWatchAd now uid aid st).1 = .ok nb nc →
      ∃ u', ((handleWatchAd now uid aid st).2).users uid = some u' ∧
        u'.last_activity = some now) ∧
    (∀ v w : UserRec, v.last_activity = w.last_activity →
      rateOk now' v = rateOk now' w) ∧
    (u.last_activity = some t →
      (now' : ℤ) - (t : ℤ) < MIN_TIME_BETWEEN_ACTIONS_MS →
      u.is_banned = false →
      (∀ ta2, validateAndUseActionId now' uid aid "watchAd" st.temp_actions =
          (TokenCheck.okConsumed, ta2) →
        (handleWatchAd now' uid aid st).1 = .err 429 msgRate) ∧
      (∀ ta2, validateAndUseActionId now' uid aid "spinResult" st.temp_actions =
          (TokenCheck.okConsumed, ta2) →
        (handleSpinResult now' randomIndex uid aid st).1 = .err 429 msgRate)) := by
  refine ⟨?_, ?_, ?_, ?_⟩
  · intro nb nc hok
    obtain ⟨_, u', hu', hl, _⟩ :=
      handleSpinResult_ok_outcome now randomIndex uid aid st u nb nc hu hok
    exact ⟨u', hu', hl⟩
  · intro nb nc hok
    obtain ⟨_, u', hu', hl, _⟩ := handleWatchAd_ok_outcome now uid aid st u nb nc hu hok
    exact ⟨u', hu', hl⟩
  · intro v w hvw
    unfold rateOk
    rw [hvw]
  · intro hlast hlt hb
    have hr : rateOk now' u = false := rateOk_recent now' t u hlast hlt
    constructor
    · intro ta2 hv
      exact handleWatchAd_rate_reject now' uid aid st u ta2 hu hv hb hr
    · intro ta2 hv
      exact handleSpinResult_rate_reject now' randomIndex uid aid st u ta2 hu hv hb hr

/-- Witness user for the C6 amendment: last active at t=100000. -/
def c6wUser : UserRec :=
  ⟨0, 0, 0, 0, none, none, none, some 100000, false, false, none⟩

/-- Witness store for the C6 amendment. -/
def c6wStore : Store :=
  { emptyStore with
    users := fun n => if n = 8 then some c6wUser else none,
    temp_actions := [⟨5, 8, "a2", "watchAd", 100500⟩] }

/-- Witness for the amended C6: a user last active at 100000 is rejected
429 on an ad-watch at 101000 despite a valid token. -/
theorem c6_amended_shared_cooldown_witness :
    c6wStore.users 8 = some c6wUser ∧
    (handleWatchAd 101000 8 (some "a2") c6wStore).1 = Resp.err 429 msgRate :=
  ⟨rfl,
   ((c6_amended_shared_cooldown 100000 101000 0 8 (some "a2") c6wStore c6wUser 100000
       rfl).2.2.2 rfl (by decide) rfl).1 [] (by decide)⟩

-- ------------------------------------------------------------------
-- C7: membership-check failures versus negative membership
-- ------------------------------------------------------------------

theorem checkChannelMembership_false (botToken : Option String) (username : String)
    (o : TgOutcome)
    (ho : o = TgOutcome.netError ∨ o = TgOutcome.httpError ∨ o = TgOutcome.apiNotOk ∨
      o = TgOutcome.status "left") :
    checkChannelMembership botToken username o = false := by
  unfold checkChannelMembership
  by_cases hbt : jsTruthyStr botToken = false
  · rw [if_pos hbt]
  · rw [if_neg hbt]
    rcases ho with h | h | h | h <;> subst h <;> decide

theorem handleCompleteTask_token_ok (now uid tid : Nat) (aid : Option String)
    (botToken : Option String) (memb : TgOutcome) (st : Store) (ta2 : List TempAction)
    (hv : validateAndUseActionId now uid aid ("completeTask_" ++ toString tid)
        st.temp_actions = (TokenCheck.okConsumed, ta2)) :
    handleCompleteTask now uid aid (some tid) botToken memb st =
      completeTaskChecked now uid tid botToken memb { st with temp_actions := ta2 } := by
  simp only [handleCompleteTask]
  rw [hv]

/-- Channel-task membership rejection: with the task fetched, no
duplicate completion, the rate check passing, a channel-typed task whose
link parses, any `false` membership answer — failure or authoritative
negative — produces the same user-facing 400 "has not joined" response
and writes nothing. -/
theorem completeTaskChecked_notJoined (now uid tid : Nat) (botToken : Option String)
    (memb : TgOutcome) (st : Store) (task : TaskRec) (link ch : String)
    (htask : st.tasks tid = some task)
    (hdup : (st.completions.filter
      (fun p => decide (p.1 = uid) && decide (p.2 = tid))).length = 0)
    (hrate : checkRateLimit now uid st = true)
    (htype : taskTypeOf task = "channel")
    (hlink : task.link = some link)
    (hch : extractChannel link = some ch)
    (hmem : checkChannelMembership botToken ("@" ++ ch) memb = false) :
    completeTaskChecked now uid tid botToken memb st =
      (.err 400 ("User has not joined the required channel: @" ++ ch), st) := by
  unfold completeTaskChecked
  simp only [htask]
  rw [if_neg (by rw [hdup]; exact lt_irrefl 0)]
  rw [if_neg (by rw [hrate]; exact (by decide))]
  rw [if_pos htype]
  simp only [hlink, hch]
  rw [if_pos hmem]

/-- Witness user and store for C7: user 9, channel task 3, fresh token. -/
def c7User : UserRec :=
  ⟨0, 0, 0, 0, none, none, none, none, false, false, none⟩

def c7Task : TaskRec :=
  ⟨10, some "https://t.me/mychannel", none, some "channel"⟩

def c7Store : Store :=
  { emptyStore with
    users := fun n => if n = 9 then some c7User else none,
    tasks := fun n => if n = 3 then some c7Task else none,
    temp_actions := [⟨1, 9, "ct1", "completeTask_3", 99000⟩] }

/-- Counterexample to C7 as stated: a network failure of the Telegram
membership call produces exactly the same user-facing
400 "has not joined" response as an authoritative not-a-member answer —
there is no retryable 503 path and the two cases are not distinguished. -/
theorem c7_counterexample :
    (handleCompleteTask 100000 9 (some "ct1") (some 3) (some "B") TgOutcome.netError
        c7Store).1 =
      Resp.err 400 "User has not joined the required channel: @mychannel" ∧
    (handleCompleteTask 100000 9 (some "ct1") (some 3) (some "B")
        (TgOutcome.status "left") c7Store).1 =
      Resp.err 400 "User has not joined the required channel: @mychannel" ∧
    (handleCompleteTask 100000 9 (some "ct1") (some 3) (some "B") TgOutcome.netError
        c7Store).1 ≠ Resp.err 503 "Verification temporarily unavailable. Try later." := by
  refine ⟨?_, ?_, ?_⟩ <;> decide

/-- C7 amended. The code does NOT distinguish a transport/API failure of
the membership check from a negative membership answer:
`checkChannelMembership` returns `false` for a network error, a non-OK
HTTP response and an `ok:false` API payload exactly as for status
"left", and the channel branch of `completeTask` maps every `false` to
the same 400 "has not joined" rejection; there is no 503 path.
Consistently with the claim's no-penalty part, nothing is persisted on
that path beyond the already-consumed token: the user row, completions
and every other table are left as they were. -/
theorem c7_amended_failure_conflated (now uid tid : Nat) (aid : Option String)
    (botToken : Option String) (username : String) (st : Store) :
    (checkChannelMembership botToken username TgOutcome.netError = false ∧
     checkChannelMembership botToken username TgOutcome.httpError = false ∧
     checkChannelMembership botToken username TgOutcome.apiNotOk = false ∧
     checkChannelMembership botToken username (TgOutcome.status "left") = false) ∧
    (∀ (task : TaskRec) (link ch : String) (o : TgOutcome) (ta2 : List TempAction),
      validateAndUseActionId now uid aid ("completeTask_" ++ toString tid)
          st.temp_actions = (TokenCheck.okConsumed, ta2) →
      st.tasks tid = some task →
      (st.completions.filter
        (fun p => decide (p.1 = uid) && decide (p.2 = tid))).length = 0 →
      checkRateLimit now uid st = true →
      taskTypeOf task = "channel" →
      task.link = some link →
      extractChannel link = some ch →
      checkChannelMembership botToken ("@" ++ ch) o = false →
      (handleCompleteTask now uid aid (some tid) botToken o st).1 =
        .err 400 ("User has not joined the required channel: @" ++ ch) ∧
      ((handleCompleteTask now uid aid (some tid) botToken o st).2).users = st.users ∧
      ((handleCompleteTask now uid aid (some tid) botToken o st).2).completions =
        st.completions ∧
      ((handleCompleteTask now uid aid (some tid) botToken o st).2).temp_actions = ta2) := by
  constructor
  · exact ⟨checkChannelMembership_false botToken username _ (Or.inl rfl),
      checkChannelMembership_false botToken username _ (Or.inr (Or.inl rfl)),
      checkChannelMembership_false botToken username _ (Or.inr (Or.inr (Or.inl rfl))),
      checkChannelMembership_false botToken username _ (Or.inr (Or.inr (Or.inr rfl)))⟩
  · intro task link ch o ta2 hv htask hdup hrate htype hlink hch hmem
    have hcomp := handleCompleteTask_token_ok now uid tid aid botToken o st ta2 hv
    have hrej := completeTaskChecked_notJoined now uid tid botToken o
      { st with temp_actions := ta2 } task link ch htask hdup hrate htype hlink hch hmem
    rw [hcomp, hrej]
    exact ⟨rfl, rfl, rfl, rfl⟩

/-- Witness for the amended C7 at the concrete store: the network-error
outcome of `getChatMember` leads to the 400 "has not joined" response
with no store write beyond the consumed token. -/
theorem c7_amended_failure_conflated_witness :
    (checkChannelMembership (some "B") "@mychannel" TgOutcome.netError = false ∧
     checkChannelMembership (some "B") "@mychannel" TgOutcome.httpError = false ∧
     checkChannelMembership (some "B") "@mychannel" TgOutcome.apiNotOk = false ∧
     checkChannelMembership (some "B") "@mychannel" (TgOutcome.status "left") = false) ∧
    ((handleCompleteTask 100000 9 (some "ct1") (some 3) (some "B") TgOutcome.netError
        c7Store).1 =
      Resp.err 400 ("User has not joined the required channel: @" ++ "mychannel") ∧
    ((handleCompleteTask 100000 9 (some "ct1") (some 3) (some "B") TgOutcome.netError
        c7Store).2).users = c7Store.users ∧
    ((handleCompleteTask 100000 9 (some "ct1") (some 3) (some "B") TgOutcome.netError
        c7Store).2).completions = c7Store.completions ∧
    ((handleCompleteTask 100000 9 (some "ct1") (some 3) (some "B") TgOutcome.netError
        c7Store).2).temp_actions = []) :=
  ⟨(c7_amended_failure_conflated 100000 9 3 (some "ct1") (some "B") "@mychannel"
      c7Store).1,
   (c7_amended_failure_conflated 100000 9 3 (some "ct1") (some "B") "@mychannel"
      c7Store).2 c7Task "https://t.me/mychannel" "mychannel" TgOutcome.netError []
     (by decide) rfl (by decide) (by decide) (by decide) rfl (by decide) (by decide)⟩

-- ------------------------------------------------------------------
-- C8: credential selection at boot
-- ------------------------------------------------------------------

/-- Counterexample to C8 as stated: with the privileged service-role key
absent from the environment, the module does not fail — it silently
selects the anon key (line 12's fallback), and the per-request
`supabaseFetch` guard passes with it, so requests are served with the
less-privileged credential. -/
theorem c8_counterexample :
    SUPABASE_SERVICE_ROLE_KEY none none = none ∧
    SUPABASE_KEY none none (some "anon-key") = some "anon-key" ∧
    supabaseFetchGuardThrows (some "https://db.example")
      (SUPABASE_KEY none none (some "anon-key")) = false := by
  refine ⟨rfl, rfl, ?_⟩
  decide

/-- C8 amended. There is no startup fail-fast at all: when the
privileged key is absent the module falls back to the anon key and
serves requests with it; when no key of any kind is configured the
selected key is null and the failure surfaces only per request, when
`supabaseFetch` throws its guard error inside each handler. (The module
top level, lines 1-33, performs no check whatsoever.) -/
theorem c8_amended_key_fallback (anon svc : String) (url : Option String)
    (hsvc : svc ≠ "") :
    SUPABASE_KEY none none (some anon) = some anon ∧
    SUPABASE_KEY (some svc) none (some anon) = some svc ∧
    SUPABASE_KEY none none none = none ∧
    supabaseFetchGuardThrows url (SUPABASE_KEY none none none) = true := by
  refine ⟨rfl, ?_, rfl, ?_⟩
  · show jsOrStr (jsOrStr (some svc) (jsOrStr none none)) (some anon) = some svc
    simp [jsOrStr, hsvc]
  · cases url <;>
      simp [supabaseFetchGuardThrows, jsTruthyStr, SUPABASE_KEY,
        SUPABASE_SERVICE_ROLE_KEY, jsOrStr]

/-- Witness for the amended C8 at concrete environment values. -/
theorem c8_amended_key_fallback_witness :
    SUPABASE_KEY none none (some "anon-key") = some "anon-key" ∧
    SUPABASE_KEY (some "service-key") none (some "anon-key") = some "service-key" ∧
    SUPABASE_KEY none none none = none ∧
    supabaseFetchGuardThrows (some "https://db.example")
      (SUPABASE_KEY none none none) = true :=
  c8_amended_key_fallback "anon-key" "service-key" (some "https://db.example")
    (by decide)

-- ------------------------------------------------------------------
-- C9: the shadow-ban flag is never consulted
-- ------------------------------------------------------------------

/-- Witness user for C9: shadow-banned, not hard-banned, fresh. -/
def c9User : UserRec :=
  ⟨0, 0, 0, 0, none, none, none, none, false, true, none⟩

/-- Witness store for C9. -/
def c9Store : Store :=
  { emptyStore with
    users := fun n => if n = 11 then some c9User else none,
    temp_actions := [⟨1, 11, "w9", "watchAd", 99000⟩] }

/-- Counterexample to C9 as stated: for a shadow-banned user, a watchAd
request succeeds and the reward IS persisted — the stored balance
changes from 0 to 6 — contradicting the claim that a shadow-banned
user's persisted balance is left unchanged while only the response
pretends success. -/
theorem c9_counterexample :
    c9User.shadow_ban = true ∧
    (handleWatchAd 100000 11 (some "w9") c9Store).1 =
      Resp.ok (some (c9User.balance + REWARD_PER_AD)) (some 1) ∧
    (∃ u', ((handleWatchAd 100000 11 (some "w9") c9Store).2).users 11 = some u' ∧
      u'.balance = c9User.balance + REWARD_PER_AD ∧ u'.balance ≠ c9User.balance) := by
  have hv : validateAndUseActionId 100000 11 (some "w9") "watchAd"
      c9Store.temp_actions = (TokenCheck.okConsumed, []) := by decide
  have hcomp := handleWatchAd_token_ok 100000 11 (some "w9") c9Store [] hv
  have hv1 : (resetDailyLimitsIfExpired 100000 11
      { c9Store with temp_actions := [] }).users 11 = some (resetUserRec 100000 c9User) :=
    reset_users_self 100000 11 _ c9User rfl
  obtain ⟨c1, c2, c3, c4⟩ := watchAdChecked_cases 100000 11 _ _ hv1
  have hb : (resetUserRec 100000 c9User).is_banned = false := by
    rw [resetUserRec_is_banned]
    rfl
  have hr : rateOk 100000 (resetUserRec 100000 c9User) = true := by
    rw [rateOk_reset]
    decide
  have hcap : (resetUserRec 100000 c9User).ads_watched_today < DAILY_MAX_ADS := by decide
  have hads0 : (resetUserRec 100000 c9User).ads_watched_today = 0 := by decide
  have hbranch := c4 hb hr hcap
  have hne : c9User.balance + REWARD_PER_AD ≠ c9User.balance := by
    show (0 : ℚ) + 6 ≠ 0
    norm_num
  refine ⟨rfl, ?_, ?_⟩
  · rw [hcomp, hbranch, resetUserRec_balance, hads0]
  · obtain ⟨w, hw, hw1, hw2, hw3, hwl, hwb, hwbal⟩ :=
      watchAdPersist_self 100000 11 (resetUserRec 100000 c9User) _ hv1
    have href : (resetUserRec 100000 c9User).ref_by ≠ some 11 := by decide
    refine ⟨w, ?_, ?_, ?_⟩
    · rw [hcomp, hbranch]
      exact hw
    · rw [hwbal href, resetUserRec_balance]
    · rw [hwbal href, resetUserRec_balance]
      exact hne

/-- C9 amended. The handlers never read the shadow-ban flag (no SELECT
in the source includes such a column): a shadow-banned but not
hard-banned user is treated exactly like a normal user — a watchAd
request passing the token, rate and cap checks returns a real success
and the reward is genuinely persisted to the stored balance; no
fictitious-success path exists. -/
theorem c9_amended_shadow_ban_ignored (now uid : Nat) (aid : Option String)
    (st : Store) (u : UserRec) (hu : st.users uid = some u)
    (_hsb : u.shadow_ban = true) (hb : u.is_banned = false)
    (hr : rateOk now u = true) (hcap : u.ads_watched_today < DAILY_MAX_ADS)
    (hdue : adsResetDue now u = false) (href : u.ref_by ≠ some uid) :
    ∀ ta2, validateAndUseActionId now uid aid "watchAd" st.temp_actions =
        (TokenCheck.okConsumed, ta2) →
      (handleWatchAd now uid aid st).1 =
        .ok (some (u.balance + REWARD_PER_AD)) (some (u.ads_watched_today + 1)) ∧
      ∃ u', ((handleWatchAd now uid aid st).2).users uid = some u' ∧
        u'.balance = u.balance + REWARD_PER_AD := by
  intro ta2 hv
  have hcomp := handleWatchAd_token_ok now uid aid st ta2 hv
  have hv1 : (resetDailyLimitsIfExpired now uid
      { st with temp_actions := ta2 }).users uid = some (resetUserRec now u) :=
    reset_users_self now uid _ u hu
  obtain ⟨c1, c2, c3, c4⟩ := watchAdChecked_cases now uid _ _ hv1
  have hb' : (resetUserRec now u).is_banned = false := by
    rw [resetUserRec_is_banned]
    exact hb
  have hr' : rateOk now (resetUserRec now u) = true := by
    rw [rateOk_reset]
    exact hr
  have hads : (resetUserRec now u).ads_watched_today = u.ads_watched_today := by
    rw [resetUserRec_ads, hdue]
    simp
  have hcap' : (resetUserRec now u).ads_watched_today < DAILY_MAX_ADS := by
    rw [hads]
    exact hcap
  have hbranch := c4 hb' hr' hcap'
  obtain ⟨w, hw, hw1, hw2, hw3, hwl, hwb, hwbal⟩ :=
    watchAdPersist_self now uid (resetUserRec now u) _ hv1
  have href' : (resetUserRec now u).ref_by ≠ some uid := by
    rw [resetUserRec_ref_by]
    exact href
  constructor
  · rw [hcomp, hbranch, resetUserRec_balance, hads]
  · refine ⟨w, ?_, ?_⟩
    · rw [hcomp, hbranch]
      exact hw
    · rw [hwbal href', resetUserRec_balance]

/-- Witness for the amended C9: the shadow-banned user 11 receives a
really-persisted reward. -/
theorem c9_amended_shadow_ban_ignored_witness :
    c9Store.users 11 = some c9User ∧ c9User.shadow_ban = true ∧
    ((handleWatchAd 100000 11 (some "w9") c9Store).1 =
      Resp.ok (some (c9User.balance + REWARD_PER_AD))
        (some (c9User.ads_watched_today + 1)) ∧
    ∃ u', ((handleWatchAd 100000 11 (some "w9") c9Store).2).users 11 = some u' ∧
      u'.balance = c9User.balance + REWARD_PER_AD) :=
  ⟨rfl, rfl,
   c9_amended_shadow_ban_ignored 100000 11 (some "w9") c9Store c9User rfl rfl rfl
     (by decide) (by decide) (by decide) (by decide) [] (by decide)⟩

-- ------------------------------------------------------------------
-- C1 and C10: balance sources, the commission hole, and the auth gate
-- ------------------------------------------------------------------

/-- Default branch of the type switch (line 1349), used to instantiate
the unmodelled handlers in closed statements. -/
def noHandler : String → Store → Resp × Store :=
  fun t st => (.err 400 ("Unknown request type: " ++ t), st)

/-- Referrer on record for the commission counterexample. -/
def c1Referrer : UserRec :=
  ⟨0, 0, 0, 0, none, none, none, none, false, false, none⟩

/-- Store holding only the referrer, user id 42. -/
def c1Store : Store :=
  { emptyStore with users := fun n => if n = 42 then some c1Referrer else none }

/-- A bare commission request: no initData, no user_id, no action token,
client-chosen `source_reward`. -/
def c1Req : Request :=
  ⟨some "commission", none, none, none, some 42, some 7, some 1000000, none, none,
   none, none⟩

/-- A `watchAd` request with no initData, for the 401 gate. -/
def c10Req : Request :=
  ⟨some "watchAd", none, some 7, none, none, none, none, none, none, none, none⟩

/-- Counterexample to C1 as stated: a `commission` request with no
identity payload and no action token reaches `handleCommission` and adds
a client-chosen amount to the referrer's persisted balance — 40% of the
client-supplied `source_reward` (400000 for source_reward 1000000, and
200000 when the client instead sends 500000: the credited amount is
under client control). -/
theorem c1_counterexample :
    (routeRequest 0 0 none TgOutcome.netError noHandler c1Req c1Store).1 =
      Resp.ok (some 400000) none ∧
    ((routeRequest 0 0 none TgOutcome.netError noHandler c1Req c1Store).2).users 42 =
      some { c1Referrer with balance := 400000 } ∧
    c1Req.initData = none ∧ c1Req.action_id = none ∧
    (routeRequest 0 0 none TgOutcome.netError noHandler
        { c1Req with source_reward := some 500000 } c1Store).1 =
      Resp.ok (some 200000) none := by
  have hd := routeRequest_commission_dispatch 0 0 none TgOutcome.netError noHandler
    c1Req c1Store rfl
  have hd2 := routeRequest_commission_dispatch 0 0 none TgOutcome.netError noHandler
    { c1Req with source_reward := some 500000 } c1Store rfl
  have hval : c1Referrer.balance + (1000000 : ℚ) * REFERRAL_COMMISSION_RATE = 400000 := by
    show (0 : ℚ) + 1000000 * (40 / 100) = 400000
    norm_num
  have hval2 : c1Referrer.balance + (500000 : ℚ) * REFERRAL_COMMISSION_RATE = 200000 := by
    show (0 : ℚ) + 500000 * (40 / 100) = 200000
    norm_num
  have hc : ¬((1000000 : ℚ) * REFERRAL_COMMISSION_RATE < 1 / 1000000) := by
    show ¬((1000000 : ℚ) * (40 / 100) < 1 / 1000000)
    norm_num
  have hc2 : ¬((500000 : ℚ) * REFERRAL_COMMISSION_RATE < 1 / 1000000) := by
    show ¬((500000 : ℚ) * (40 / 100) < 1 / 1000000)
    norm_num
  have hcred := handleCommission_credit 42 (some 7) 1000000 c1Store c1Referrer rfl rfl
    (by norm_num) hc
  have hcred2 := handleCommission_credit 42 (some 7) 500000 c1Store c1Referrer rfl rfl
    (by norm_num) hc2
  refine ⟨?_, ?_, rfl, rfl, ?_⟩
  · rw [hd]
    show (handleCommission (some 42) (some 7) (some 1000000) c1Store).1 = _
    rw [hcred.1, hval]
  · rw [hd]
    show ((handleCommission (some 42) (some 7) (some 1000000) c1Store).2).users 42 = _
    rw [hcred.2, hval]
  · rw [hd2]
    show (handleCommission (some 42) (some 7) (some 500000) c1Store).1 = _
    rw [hcred2.1, hval2]

/-- C1 amended. Persisted balances change only by server-side amounts —
the fixed ad reward, the server-drawn spin sector, the fixed task-link
reward — and every failing request leaves the balance unchanged; a
withdrawal is the one flow carrying a client amount and it only ever
decreases the balance; EXCEPT that the commission flow credits the
referrer with 40% of a client-supplied `source_reward`. -/
theorem c1_amended_balance_sources (now randomIndex uid : Nat) (aid : Option String)
    (amount : Option ℚ) (bin fe : Option String) (st : Store) (u : UserRec)
    (hu : st.users uid = some u) :
    (∀ nb nc, (handleWatchAd now uid aid st).1 = .ok nb nc →
      nb = some (u.balance + REWARD_PER_AD) ∧
      (u.ref_by ≠ some uid →
        ∃ u', ((handleWatchAd now uid aid st).2).users uid = some u' ∧
          u'.balance = u.balance + REWARD_PER_AD)) ∧
    (∀ c m, (handleWatchAd now uid aid st).1 = .err c m →
      ∃ u', ((handleWatchAd now uid aid st).2).users uid = some u' ∧
        u'.balance = u.balance) ∧
    (∀ nb nc, (handleSpinResult now randomIndex uid aid st).1 = .ok nb nc →
      nb = some (u.balance + SPIN_SECTORS.getD randomIndex 0) ∧
      ∃ u', ((handleSpinResult now randomIndex uid aid st).2).users uid = some u' ∧
        u'.balance = u.balance + SPIN_SECTORS.getD randomIndex 0) ∧
    (∀ c m, (handleSpinResult now randomIndex uid aid st).1 = .err c m →
      ∃ u', ((handleSpinResult now randomIndex uid aid st).2).users uid = some u' ∧
        u'.balance = u.balance) ∧
    (∀ nb nc, (handleTaskLinkClick now uid aid st).1 = .ok nb nc →
      nb = some (u.balance + TASK_LINK_REWARD) ∧
      (u.ref_by ≠ some uid →
        ∃ u', ((handleTaskLinkClick now uid aid st).2).users uid = some u' ∧
          u'.balance = u.balance + TASK_LINK_REWARD)) ∧
    (∀ c m, (handleTaskLinkClick now uid aid st).1 = .err c m →
      ∃ u', ((handleTaskLinkClick now uid aid st).2).users uid = some u' ∧
        u'.balance = u.balance) ∧
    (∀ nb nc, (handleWithdraw now uid aid amount bin fe st).1 = .ok nb nc →
      ∃ amt, amount = some amt ∧ MIN_WITHDRAW ≤ amt ∧
        nb = some (u.balance - amt) ∧
        ∃ u', ((handleWithdraw now uid aid amount bin fe st).2).users uid = some u' ∧
          u'.balance = u.balance - amt ∧ u'.balance < u.balance) ∧
    (∀ c m, (handleWithdraw now uid aid amount bin fe st).1 = .err c m →
      ∃ u', ((handleWithdraw now uid aid amount bin fe st).2).users uid = some u' ∧
        u'.balance = u.balance) ∧
    (∀ refereeId r, r ≠ 0 → ¬(r * REFERRAL_COMMISSION_RATE < 1 / 1000000) →
      u.is_banned = false →
      (handleCommission (some uid) refereeId (some r) st).1 =
        .ok (some (u.balance + r * REFERRAL_COMMISSION_RATE)) none ∧
      ((handleCommission (some uid) refereeId (some r) st).2).users uid =
        some { u with balance := u.balance + r * REFERRAL_COMMISSION_RATE }) := by
  refine ⟨?_, ?_, ?_, ?_, ?_, ?_, ?_, ?_, ?_⟩
  · intro nb nc hok
    obtain ⟨hnb, u', hu', _, hbal⟩ := handleWatchAd_ok_outcome now uid aid st u nb nc hu hok
    exact ⟨hnb, fun href => ⟨u', hu', hbal href⟩⟩
  · intro c m herr
    exact handleWatchAd_err_balance now uid aid st u c m hu herr
  · intro nb nc hok
    obtain ⟨hnb, u', hu', _, hbal⟩ :=
      handleSpinResult_ok_outcome now randomIndex uid aid st u nb nc hu hok
    exact ⟨hnb, u', hu', hbal⟩
  · intro c m herr
    exact handleSpinResult_err_balance now randomIndex uid aid st u c m hu herr
  · intro nb nc hok
    obtain ⟨hnb, u', hu', _, hbal⟩ :=
      handleTaskLinkClick_ok_outcome now uid aid st u nb nc hu hok
    exact ⟨hnb, fun href => ⟨u', hu', hbal href⟩⟩
  · intro c m herr
    exact handleTaskLinkClick_err_balance now uid aid st u c m hu herr
  · intro nb nc hok
    exact handleWithdraw_ok_outcome now uid aid amount bin fe st u nb nc hu hok
  · intro c m herr
    exact handleWithdraw_err_balance now uid aid amount bin fe st u c m hu herr
  · intro refereeId r hr0 hc hban
    exact handleCommission_credit uid refereeId r st u hu hban hr0 hc

/-- Witness for the amended C1, exercising the commission conjunct at a
concrete store: crediting referrer 42 with 40% of a client-sent 1000. -/
theorem c1_amended_balance_sources_witness :
    c1Store.users 42 = some c1Referrer ∧
    ((handleCommission (some 42) (some 7) (some 1000) c1Store).1 =
      .ok (some (c1Referrer.balance + 1000 * REFERRAL_COMMISSION_RATE)) none ∧
    ((handleCommission (some 42) (some 7) (some 1000) c1Store).2).users 42 =
      some { c1Referrer with
        balance := c1Referrer.balance + 1000 * REFERRAL_COMMISSION_RATE }) :=
  ⟨rfl,
   (c1_amended_balance_sources 0 0 42 none none none none c1Store c1Referrer
     rfl).2.2.2.2.2.2.2.2 (some 7) 1000 (by norm_num)
     (by show ¬((1000 : ℚ) * (40 / 100) < 1 / 1000000); norm_num) rfl⟩

/-- C10. Every request type except `commission` is rejected 401 before
any handler runs when the signed identity payload is missing or fails
validation; a `commission` request alone is dispatched with no identity
check and no action token (the token store is untouched), and credits
the referrer with 40% of the client-supplied `source_reward`. -/
theorem c10_auth_gate_and_commission (now randomIndex : Nat) (botToken : Option String)
    (memb : TgOutcome) (other : String → Store → Resp × Store) (req : Request)
    (st : Store) :
    (∀ t, req.rtype = some t → t ≠ "commission" → req.initData ≠ some true →
      routeRequest now randomIndex botToken memb other req st =
        (.err 401 "Invalid or expired initData. Security check failed.", st)) ∧
    (req.rtype = some "commission" →
      routeRequest now randomIndex botToken memb other req st =
        handleCommission req.referrer_id req.referee_id req.source_reward st ∧
      (routeRequest now randomIndex botToken memb other req st).2.temp_actions =
        st.temp_actions ∧
      (∀ rid refUser r, req.referrer_id = some rid → req.source_reward = some r →
        st.users rid = some refUser → refUser.is_banned = false → r ≠ 0 →
        ¬(r * REFERRAL_COMMISSION_RATE < 1 / 1000000) →
        (routeRequest now randomIndex botToken memb other req st).1 =
          .ok (some (refUser.balance + r * REFERRAL_COMMISSION_RATE)) none ∧
        (routeRequest now randomIndex botToken memb other req st).2.users rid =
          some { refUser with
            balance := refUser.balance + r * REFERRAL_COMMISSION_RATE })) := by
  constructor
  · intro t ht hne hbad
    exact routeRequest_initData_gate now randomIndex botToken memb other req st t ht hne hbad
  · intro ht
    have hd := routeRequest_commission_dispatch now randomIndex botToken memb other req st ht
    refine ⟨hd, ?_, ?_⟩
    · rw [hd]
      exact handleCommission_temp _ _ _ st
    · intro rid refUser r hrid hsr hus hban hr0 hc
      rw [hd, hrid, hsr]
      exact handleCommission_credit rid req.referee_id r st refUser hus hban hr0 hc

/-- Witness for C10: the 401 gate on a concrete tokenless `watchAd`
request, and the referrer credit on a concrete `commission` request. -/
theorem c10_auth_gate_and_commission_witness :
    (routeRequest 0 0 none TgOutcome.netError noHandler c10Req c1Store =
      (.err 401 "Invalid or expired initData. Security check failed.", c1Store)) ∧
    ((routeRequest 0 0 none TgOutcome.netError noHandler c1Req c1Store).1 =
      .ok (some (c1Referrer.balance + 1000000 * REFERRAL_COMMISSION_RATE)) none ∧
    (routeRequest 0 0 none TgOutcome.netError noHandler c1Req c1Store).2.users 42 =
      some { c1Referrer with
        balance := c1Referrer.balance + 1000000 * REFERRAL_COMMISSION_RATE }) :=
  ⟨(c10_auth_gate_and_commission 0 0 none TgOutcome.netError noHandler c10Req
      c1Store).1 "watchAd" rfl (by decide) (by decide),
   ((c10_auth_gate_and_commission 0 0 none TgOutcome.netError noHandler c1Req
      c1Store).2 rfl).2.2 42 c1Referrer 1000000 rfl rfl rfl rfl (by norm_num)
     (by show ¬((1000000 : ℚ) * (40 / 100) < 1 / 1000000); norm_num)⟩

/-- Witness user for C4: at the ads cap, counters within caps. -/
def c4User : UserRec :=
  ⟨0, 200, 0, 0, none, none, none, none, false, false, none⟩

/-- Witness store for C4: user 7 plus a fresh `watchAd` token. -/
def c4Store : Store :=
  { emptyStore with
    users := fun n => if n = 7 then some c4User else none,
    temp_actions := [⟨1, 7, "w1", "watchAd", 99000⟩] }

/-- Witness for C4 on a concrete store: the cap invariant is preserved
by a watchAd call for a user already at the ads cap. -/
theorem c4_caps_invariant_witness :
    (c4Store.users 7 = some c4User ∧ capsOk c4User) ∧
    (∀ u', ((handleWatchAd 100000 7 (some "w1") c4Store).2).users 7 = some u' →
      capsOk u') :=
  ⟨⟨rfl, ⟨by decide, by decide, by decide⟩⟩,
   (c4_caps_invariant 100000 0 7 (some "w1") c4Store c4User rfl
     ⟨by decide, by decide, by decide⟩).1⟩

-- ------------------------------------------------------------------
-- C5: the 6-hour limit-based reset
-- ------------------------------------------------------------------

/-- C5. For a user present in the store, `resetDailyLimitsIfExpired`
resets each family (ads, spins, task-links) exactly when its
limit-reached marker is set, the counter is still at or above the cap,
and strictly more than six hours have elapsed since the marker; a reset
zeroes the counter and clears the marker together (both-or-neither, one
update), and a family whose marker is unset is left untouched. -/
theorem c5_reset_semantics (now uid : Nat) (st : Store) (u : UserRec)
    (hu : st.users uid = some u) :
    ∃ u', (resetDailyLimitsIfExpired now uid st).users uid = some u' ∧
      ((∀ t, u.ads_limit_reached_at = some t →
          ((u'.ads_watched_today = 0 ∧ u'.ads_limit_reached_at = none) ↔
            (DAILY_MAX_ADS ≤ u.ads_watched_today ∧
             (RESET_INTERVAL_MS : ℤ) < (now : ℤ) - (t : ℤ)))) ∧
       (u.ads_limit_reached_at = none →
          u'.ads_watched_today = u.ads_watched_today ∧ u'.ads_limit_reached_at = none) ∧
       ((u'.ads_watched_today = 0 ∧ u'.ads_limit_reached_at = none) ∨
        (u'.ads_watched_today = u.ads_watched_today ∧
         u'.ads_limit_reached_at = u.ads_limit_reached_at))) ∧
      ((∀ t, u.spins_limit_reached_at = some t →
          ((u'.spins_today = 0 ∧ u'.spins_limit_reached_at = none) ↔
            (DAILY_MAX_SPINS ≤ u.spins_today ∧
             (RESET_INTERVAL_MS : ℤ) < (now : ℤ) - (t : ℤ)))) ∧
       (u.spins_limit_reached_at = none →
          u'.spins_today = u.spins_today ∧ u'.spins_limit_reached_at = none) ∧
       ((u'.spins_today = 0 ∧ u'.spins_limit_reached_at = none) ∨
        (u'.spins_today = u.spins_today ∧
         u'.spins_limit_reached_at = u.spins_limit_reached_at))) ∧
      ((∀ t, u.task_link_limit_reached_at = some t →
          ((u'.task_link_clicks_today = 0 ∧ u'.task_link_limit_reached_at = none) ↔
            (TASK_LINK_DAILY_MAX ≤ u.task_link_clicks_today ∧
             (RESET_INTERVAL_MS : ℤ) < (now : ℤ) - (t : ℤ)))) ∧
       (u.task_link_limit_reached_at = none →
          u'.task_link_clicks_today = u.task_link_clicks_today ∧
          u'.task_link_limit_reached_at = none) ∧
       ((u'.task_link_clicks_today = 0 ∧ u'.task_link_limit_reached_at = none) ∨
        (u'.task_link_clicks_today = u.task_link_clicks_today ∧
         u'.task_link_limit_reached_at = u.task_link_limit_reached_at))) := by
  refine ⟨resetUserRec now u, reset_users_self now uid st u hu, ?_, ?_, ?_⟩
  · refine ⟨?_, ?_, ?_⟩
    · intro t ht
      rw [resetUserRec_ads, resetUserRec_adsAt]
      by_cases hd : adsResetDue now u = true
      · simp only [hd, if_true]
        simp
        exact (adsResetDue_iff now u t ht).mp hd
      · have hd' : adsResetDue now u = false := by
          cases h2 : adsResetDue now u
          · rfl
          · exact absurd h2 hd
        simp only [hd', Bool.false_eq_true, if_false, ht]
        simp
        intro h1
        have h3 : ¬((RESET_INTERVAL_MS : ℤ) < (now : ℤ) - (t : ℤ)) :=
          fun h2 => hd ((adsResetDue_iff now u t ht).mpr ⟨h1, h2⟩)
        omega
    · intro hnone
      rw [resetUserRec_ads, resetUserRec_adsAt]
      have hd : adsResetDue now u = false := by simp [adsResetDue, hnone]
      simp [hd, hnone]
    · rw [resetUserRec_ads, resetUserRec_adsAt]
      by_cases hd : adsResetDue now u = true <;> simp [hd]
  · refine ⟨?_, ?_, ?_⟩
    · intro t ht
      rw [resetUserRec_spins, resetUserRec_spinsAt]
      by_cases hd : spinsResetDue now u = true
      · simp only [hd, if_true]
        simp
        exact (spinsResetDue_iff now u t ht).mp hd
      · have hd' : spinsResetDue now u = false := by
          cases h2 : spinsResetDue now u
          · rfl
          · exact absurd h2 hd
        simp only [hd', Bool.false_eq_true, if_false, ht]
        simp
        intro h1
        have h3 : ¬((RESET_INTERVAL_MS : ℤ) < (now : ℤ) - (t : ℤ)) :=
          fun h2 => hd ((spinsResetDue_iff now u t ht).mpr ⟨h1, h2⟩)
        omega
    · intro hnone
      rw [resetUserRec_spins, resetUserRec_spinsAt]
      have hd : spinsResetDue now u = false := by simp [spinsResetDue, hnone]
      simp [hd, hnone]
    · rw [resetUserRec_spins, resetUserRec_spinsAt]
      by_cases hd : spinsResetDue now u = true <;> simp [hd]
  · refine ⟨?_, ?_, ?_⟩
    · intro t ht
      rw [resetUserRec_tl, resetUserRec_tlAt]
      by_cases hd : tlResetDue now u = true
      · simp only [hd, if_true]
        simp
        exact (tlResetDue_iff now u t ht).mp hd
      · have hd' : tlResetDue now u = false := by
          cases h2 : tlResetDue now u
          · rfl
          · exact absurd h2 hd
        simp only [hd', Bool.false_eq_true, if_false, ht]
        simp
        intro h1
        have h3 : ¬((RESET_INTERVAL_MS : ℤ) < (now : ℤ) - (t : ℤ)) :=
          fun h2 => hd ((tlResetDue_iff now u t ht).mpr ⟨h1, h2⟩)
        omega
    · intro hnone
      rw [resetUserRec_tl, resetUserRec_tlAt]
      have hd : tlResetDue now u = false := by simp [tlResetDue, hnone]
      simp [hd, hnone]
    · rw [resetUserRec_tl, resetUserRec_tlAt]
      by_cases hd : tlResetDue now u = true <;> simp [hd]

/-- Witness for C5: a user at the ads cap whose marker is just over six
hours old is reset, while a spins family whose marker is unset is left
untouched. -/
theorem c5_reset_semantics_witness :
    (c5Store.users 9 = some c5User) ∧
    ∃ u', (resetDailyLimitsIfExpired 21700000 9 c5Store).users 9 = some u' ∧
      ((∀ t, c5User.ads_limit_reached_at = some t →
          ((u'.ads_watched_today = 0 ∧ u'.ads_limit_reached_at = none) ↔
            (DAILY_MAX_ADS ≤ c5User.ads_watched_today ∧
             (RESET_INTERVAL_MS : ℤ) < ((21700000 : Nat) : ℤ) - (t : ℤ)))) ∧
       (c5User.ads_limit_reached_at = none →
          u'.ads_watched_today = c5User.ads_watched_today ∧ u'.ads_limit_reached_at = none) ∧
       ((u'.ads_watched_today = 0 ∧ u'.ads_limit_reached_at = none) ∨
        (u'.ads_watched_today = c5User.ads_watched_today ∧
         u'.ads_limit_reached_at = c5User.ads_limit_reached_at))) ∧
      ((∀ t, c5User.spins_limit_reached_at = some t →
          ((u'.spins_today = 0 ∧ u'.spins_limit_reached_at = none) ↔
            (DAILY_MAX_SPINS ≤ c5User.spins_today ∧
             (RESET_INTERVAL_MS : ℤ) < ((21700000 : Nat) : ℤ) - (t : ℤ)))) ∧
       (c5User.spins_limit_reached_at = none →
          u'.spins_today = c5User.spins_today ∧ u'.spins_limit_reached_at = none) ∧
       ((u'.spins_today = 0 ∧ u'.spins_limit_reached_at = none) ∨
        (u'.spins_today = c5User.spins_today ∧
         u'.spins_limit_reached_at = c5User.spins_limit_reached_at))) ∧
      ((∀ t, c5User.task_link_limit_reached_at = some t →
          ((u'.task_link_clicks_today = 0 ∧ u'.task_link_limit_reached_at = none) ↔
            (TASK_LINK_DAILY_MAX ≤ c5User.task_link_clicks_today ∧
             (RESET_INTERVAL_MS : ℤ) < ((21700000 : Nat) : ℤ) - (t : ℤ)))) ∧
       (c5User.task_link_limit_reached_at = none →
          u'.task_link_clicks_today = c5User.task_link_clicks_today ∧
          u'.task_link_limit_reached_at = none) ∧
       ((u'.task_link_clicks_today = 0 ∧ u'.task_link_limit_reached_at = none) ∨
        (u'.task_link_clicks_today = c5User.task_link_clicks_today ∧
         u'.task_link_limit_reached_at = c5User.task_link_limit_reached_at))) :=
  ⟨rfl, c5_reset_semantics 21700000 9 c5Store c5User rfl⟩

end AdRewards
